import Mathlib

/-!
Shallow embedding of the submission-validation pipeline of `app_web.py`
(article scraping via `scrape_blog_metrics`, per-submission validation via
`validate_single_submission` / `validate_single_kiro_submission`, GitHub
repository verification via `verify_github_repo`, and the streaming batch
routes).  External effects (browser, HTTP, clock, database) are modelled as
explicit inputs and outputs; the control flow and all string constants are
translated directly from the source.
-/

set_option maxRecDepth 10000

namespace AppWeb

/-- Python truthiness of an optional string (`None` and `""` are falsy). -/
def pyTruthy : Option String → Bool
  | none => false
  | some s => !(s == "")

/-- Python `str.isdigit` restricted to ASCII: non-empty and all digits. -/
def pyIsDigit (s : String) : Bool :=
  !(s == "") && s.toList.all Char.isDigit

/-- Python `int` on a digit string. -/
def pyInt (s : String) : Nat :=
  s.toList.foldl (fun a c => 10 * a + (c.toNat - 48)) 0

/-- Contiguous-subsequence test on character lists (Python `in` on strings). -/
def listContainsSeq (needle : List Char) : List Char → Bool
  | [] => needle.isPrefixOf []
  | c :: rest => needle.isPrefixOf (c :: rest) || listContainsSeq needle (rest)

/-- Python substring containment `needle in hay`. -/
def strContains (hay needle : String) : Bool :=
  listContainsSeq needle.toList hay.toList

/-- Python slice `s[:n]` (by code points). -/
def strTake (s : String) (n : Nat) : String :=
  String.mk (s.toList.take n)

/-- Python `str.lower` (by code points). -/
def pyLower (s : String) : String :=
  String.mk (s.toList.map Char.toLower)

/-- Python `str.strip()` (ASCII whitespace). -/
def pyStrip (s : String) : String :=
  String.mk (((s.toList.dropWhile Char.isWhitespace).reverse.dropWhile Char.isWhitespace).reverse)

/-- `t` is a prefix of `s` (Python `str.startswith`). -/
def strStartsWith (s t : String) : Bool :=
  t.toList.isPrefixOf s.toList

/-- `t` is a suffix of `s` (Python `str.endswith`). -/
def strEndsWith (s t : String) : Bool :=
  t.toList.reverse.isPrefixOf s.toList.reverse

/-- Python `s[:-n]` for `n` trailing code points. -/
def strDropRight (s : String) (n : Nat) : String :=
  String.mk (s.toList.take (s.toList.length - n))

/-- Split a character list on a separator character (Python `str.split`). -/
def splitOnChar (sep : Char) : List Char → List (List Char)
  | [] => [[]]
  | c :: rest =>
      match splitOnChar sep (rest) with
      | [] => [[c]]
      | cur :: parts =>
          if c == sep then [] :: cur :: parts else (c :: cur) :: parts

/-- The apostrophe character, used in the hard-coded not-found sentence. -/
def apos : Char := Char.ofNat 39

/-- The literal sentence `page you're looking for can't be found` checked by
the rendered-article extractor. -/
def notFoundSentence : String :=
  "page you" ++ String.singleton apos ++ "re looking for can" ++
    String.singleton apos ++ "t be found"

/-- The literal sentence `the page you're looking for can't be found`. -/
def notFoundSentenceThe : String :=
  "the " ++ notFoundSentence

/-- DOM model of one located button: the texts of its spans whose class
contains `_card-action-text`, and the texts of all of its spans. -/
structure ButtonDom where
  actionTextSpans : List String
  allSpans : List String
deriving Repr, DecidableEq

/-- Rendered page as observed through the headless browser: title, page
source, and the located Like / Comment buttons. -/
structure RenderedPage where
  title : String
  source : String
  likeButtons : List ButtonDom
  commentButtons : List ButtonDom
deriving Repr, DecidableEq

/-- Outcome of the headless-browser session for one URL. -/
inductive RenderedOutcome where
  | importError (msg : String)
  | seleniumError (msg : String)
  | page (p : RenderedPage)
deriving Repr, DecidableEq

/-- Result quadruple of `scrape_blog_metrics`. -/
structure ScrapeResult where
  likes : Nat
  comments : Nat
  error : Option String
  is404 : Bool
deriving Repr, DecidableEq

/-- First span whose stripped text is all digits, as a number (the inner
`for span in ...: if span_text.isdigit(): ...; break` loops). -/
def firstDigitSpan : List String → Option Nat
  | [] => none
  | sp :: rest =>
      let t := pyStrip sp
      if pyIsDigit t then some (pyInt t) else firstDigitSpan (rest)

/-- Extraction from one button: prefer the `_card-action-text` spans, else
fall back to scanning every span in the button. -/
def extractFromButton (b : ButtonDom) : Option Nat :=
  match firstDigitSpan b.actionTextSpans with
  | some v => some v
  | none => firstDigitSpan b.allSpans

/-- Extraction over the list of located buttons: the loop breaks at the
first button that yields a value. -/
def extractCount : List ButtonDom → Option Nat
  | [] => none
  | b :: rest =>
      match extractFromButton b with
      | some v => some v
      | none => extractCount (rest)

/-- Not-found detection of the rendered path: lower-cased title contains
`404` or `not found`, or the first 2000 characters of the lower-cased page
source contain `404`, or the page source contains the hard-coded not-found
sentence (with or without leading `the `). -/
def rendered404 (p : RenderedPage) : Bool :=
  let t := pyLower p.title
  let src := pyLower p.source
  strContains t "404" || strContains t "not found" ||
    strContains (strTake src 2000) "404" ||
    strContains src notFoundSentence || strContains src notFoundSentenceThe

/-- The rendered (Selenium) branch of `scrape_blog_metrics`. -/
def scrapeRendered (o : RenderedOutcome) : ScrapeResult :=
  match o with
  | .importError m =>
      ⟨0, 0, some ("Selenium not available. Install with: pip install selenium webdriver-manager. Error: " ++ m), false⟩
  | .seleniumError m =>
      ⟨0, 0, some ("Selenium error: " ++ m), false⟩
  | .page p =>
      if rendered404 p then ⟨0, 0, some "404 Not Found", true⟩
      else
        ⟨(extractCount p.likeButtons).getD 0,
         (extractCount p.commentButtons).getD 0, none, false⟩

/-- DOM model of one button in the static-markup path: the optional
`_card-action-text` span text and the texts of all spans (already stripped,
as produced by `get_text(strip=True)`). -/
structure PlainButton where
  actionTextSpan : Option String
  allSpans : List String
deriving Repr, DecidableEq

/-- Static page as parsed by BeautifulSoup. -/
structure PlainPage where
  text : String
  likeButton : Option PlainButton
  commentButton : Option PlainButton
deriving Repr, DecidableEq

/-- An HTTP response for the plain-requests path. -/
structure HttpResponse where
  status : Nat
  reasonText : String
  page : PlainPage
deriving Repr, DecidableEq

/-- Outcome of `requests.get` for one URL. -/
inductive FetchOutcome where
  | timeout
  | connError
  | reqError (msg : String) (respStatus : Option Nat)
  | success (resp : HttpResponse)
deriving Repr, DecidableEq

/-- Message of the `HTTPError` raised by `raise_for_status`. -/
def httpErrorMsg (status : Nat) (reasonText url : String) : String :=
  toString status ++ (if status < 500 then " Client Error: " else " Server Error: ") ++
    reasonText ++ " for url: " ++ url

/-- Count extraction in the static path: if the button is absent the count
stays 0; with an `_card-action-text` span only that span is consulted; else
the first all-digit span wins. -/
def plainExtract (btn : Option PlainButton) : Nat :=
  match btn with
  | none => 0
  | some b =>
      match b.actionTextSpan with
      | some t => if pyIsDigit t then pyInt t else 0
      | none => (firstDigitSpan b.allSpans).getD 0

/-- The plain-requests branch of `scrape_blog_metrics`, including the
outer exception handlers of the function. -/
def scrapePlain (url : String) (o : FetchOutcome) : ScrapeResult :=
  match o with
  | .timeout => ⟨0, 0, some "Request timeout", false⟩
  | .connError => ⟨0, 0, some "Connection error", false⟩
  | .reqError msg st =>
      if strContains msg "404" || st == some 404 then
        ⟨0, 0, some "404 Not Found", true⟩
      else ⟨0, 0, some ("Request error: " ++ msg), false⟩
  | .success resp =>
      if resp.status == 404 then ⟨0, 0, some "404 Not Found", true⟩
      else if 400 ≤ resp.status && resp.status < 600 then
        let msg := httpErrorMsg resp.status resp.reasonText url
        if strContains msg "404" then ⟨0, 0, some "404 Not Found", true⟩
        else ⟨0, 0, some ("Request error: " ++ msg), false⟩
      else
        let txt := strTake (pyLower resp.page.text) 1000
        if strContains txt "404" || strContains txt "not found" then
          ⟨0, 0, some "404 Not Found", true⟩
        else
          ⟨plainExtract resp.page.likeButton, plainExtract resp.page.commentButton,
           none, false⟩

/-- External world for one scrape call: what the browser would observe and
what the HTTP fetch would return. -/
structure ScrapeEnv where
  rendered : RenderedOutcome
  plain : FetchOutcome
deriving Repr, DecidableEq

/-- Embedding of `scrape_blog_metrics`: Selenium for `builder.aws.com`
URLs, plain requests otherwise. -/
def scrape_blog_metrics (url : String) (env : ScrapeEnv) : ScrapeResult :=
  if strContains url "builder.aws.com" then scrapeRendered env.rendered
  else scrapePlain url env.plain

/-- Stored blog (project) submission record. -/
structure Submission where
  workshop_name : String
  email : String
  project_link : Option String
  valid : Bool
  validation_reason : String
  likes : Nat
  comments : Nat
deriving Repr, DecidableEq

/-- One call to `ProjectSubmission.update` as issued by the validator. -/
structure UpdateCall where
  workshop_name : String
  email : String
  valid : Bool
  validation_reason : String
  likes : Nat
  comments : Nat
deriving Repr, DecidableEq

/-- Per-submission result dict returned by `validate_single_submission`. -/
structure VerdictResult where
  workshop_name : String
  email : String
  link : String
  valid : Bool
  reason : String
  likes : Nat
  comments : Nat
deriving Repr, DecidableEq

/-- Python `scrape_error and "404" in scrape_error`. -/
def scrapeErr404 : Option String → Bool
  | none => false
  | some e => !(e == "") && strContains e "404"

/-- Reason string of the valid branch: `Verified` or `Verified but <err>`. -/
def verifiedReason : Option String → String
  | none => "Verified"
  | some e => if e == "" then "Verified" else "Verified but " ++ e

/-- The verdict computed inside the `try` block of
`validate_single_submission` (shared verbatim by the kiro blog validator):
domain check, scrape, not-found check, else valid with scraped metrics.
`exc = some m` models an exception escaping the body, handled by the
`except Exception` arm as a `System Error` with all fields at their
initial values. -/
def validateCore (link : String) (env : ScrapeEnv) (exc : Option String) :
    Bool × String × Nat × Nat :=
  match exc with
  | some m => (false, "System Error: " ++ m, 0, 0)
  | none =>
      if strContains link "community.aws" || strContains link "builder.aws.com" then
        let r := scrape_blog_metrics link env
        if r.is404 || scrapeErr404 r.error then (false, "404 Not Found", 0, 0)
        else (true, verifiedReason r.error, r.likes, r.comments)
      else (false, "Invalid Domain", 0, 0)

/-- Embedding of `validate_single_submission`: returns the result dict (or
`none` for a falsy link) together with the list of storage write-backs the
call performs. -/
def validate_single_submission (s : Submission) (env : ScrapeEnv)
    (exc : Option String) : Option VerdictResult × List UpdateCall :=
  match s.project_link with
  | none => (none, [])
  | some link =>
      if link == "" then (none, [])
      else
        let c := validateCore link env exc
        (some ⟨s.workshop_name, s.email, link, c.1, c.2.1, c.2.2.1, c.2.2.2⟩,
         [⟨s.workshop_name, s.email, c.1, c.2.1, c.2.2.1, c.2.2.2⟩])

/-- Stored kiro submission record. -/
structure KiroSubmission where
  week_number : Nat
  email : String
  blog_link : Option String
  github_link : Option String
  valid : Bool
  validation_reason : String
  likes : Nat
  comments : Nat
  github_valid : Bool
  github_validation_reason : String
deriving Repr, DecidableEq

/-- One call to `KiroSubmission.update` issued by the kiro blog validator. -/
structure KiroUpdateCall where
  week_number : Nat
  email : String
  valid : Bool
  validation_reason : String
  likes : Nat
  comments : Nat
deriving Repr, DecidableEq

/-- Per-submission result dict of `validate_single_kiro_submission`. -/
structure KiroVerdictResult where
  week_number : Nat
  email : String
  link : String
  valid : Bool
  reason : String
  likes : Nat
  comments : Nat
deriving Repr, DecidableEq

/-- Embedding of `validate_single_kiro_submission` (same body as the blog
validator, keyed by week number and writing through
`KiroSubmission.update`). -/
def validate_single_kiro_submission (s : KiroSubmission) (env : ScrapeEnv)
    (exc : Option String) : Option KiroVerdictResult × List KiroUpdateCall :=
  match s.blog_link with
  | none => (none, [])
  | some link =>
      if link == "" then (none, [])
      else
        let c := validateCore link env exc
        (some ⟨s.week_number, s.email, link, c.1, c.2.1, c.2.2.1, c.2.2.2⟩,
         [⟨s.week_number, s.email, c.1, c.2.1, c.2.2.1, c.2.2.2⟩])

/-- Effect of `ProjectSubmission.update` on the stored table: the row
matching (workshop_name, email) has its validity, reason, likes and
comments overwritten with the new values. -/
def applyUpdate (store : List Submission) (u : UpdateCall) : List Submission :=
  store.map (fun s =>
    if s.workshop_name == u.workshop_name && s.email == u.email then
      { s with valid := u.valid, validation_reason := u.validation_reason,
               likes := u.likes, comments := u.comments }
    else s)

/-- Effect of `KiroSubmission.update` (blog-verdict fields) on the stored
table. -/
def applyKiroUpdate (store : List KiroSubmission) (u : KiroUpdateCall) :
    List KiroSubmission :=
  store.map (fun s =>
    if s.week_number == u.week_number && s.email == u.email then
      { s with valid := u.valid, validation_reason := u.validation_reason,
               likes := u.likes, comments := u.comments }
    else s)

/-- A hexadecimal digit character (uppercase), for percent-encoding. -/
def hexDigit (n : Nat) : Char :=
  if n < 10 then Char.ofNat (48 + n) else Char.ofNat (55 + n)

/-- Percent-encoding of one UTF-8 byte as done by `urllib.parse.quote`
with `safe=''` (alphanumerics and `_.-~` kept verbatim). -/
def quoteByte (b : Nat) : String :=
  let c := Char.ofNat b
  if c.isAlphanum || c == '_' || c == '.' || c == '-' || c == Char.ofNat 126 then
    String.singleton c
  else
    "%" ++ String.singleton (hexDigit (b / 16)) ++ String.singleton (hexDigit (b % 16))

/-- Python `urllib.parse.quote(s, safe='')`. -/
def pyQuote (s : String) : String :=
  s.toUTF8.toList.foldl (fun acc b => acc ++ quoteByte b.toNat) ""

/-- Remainder of a character list after the first occurrence of `needle`
(none when `needle` does not occur). -/
def dropAfterSeq (needle : List Char) : List Char → Option (List Char)
  | [] => if needle.isPrefixOf [] then some [] else none
  | c :: rest =>
      if needle.isPrefixOf (c :: rest) then some ((c :: rest).drop needle.length)
      else dropAfterSeq needle (rest)

/-- Model of `urlparse(u).path` for the URL shapes handled by
`verify_github_repo`: with a `scheme://host` part the path starts at the
first slash after the host, otherwise the whole string is the path; the
path ends at the first `?` or `#`. -/
def urlparsePath (u : String) : String :=
  let cs := u.toList
  let afterHost : List Char :=
    match dropAfterSeq ("://".toList) cs with
    | some rest => rest.dropWhile (fun c => !(c == '/'))
    | none => cs
  String.mk (afterHost.takeWhile (fun c => !(c == '?') && !(c == '#')))

/-- Normalization at the head of `verify_github_repo`: strip whitespace
and prepend `https://` when the URL does not start with `http`. -/
def normalizedUrl (u : String) : String :=
  let s := pyStrip u
  if strStartsWith s "http" then s else "https://" ++ s

/-- The non-empty path segments (`path.strip('/')` then split on `/`,
dropping empties). -/
def pathSegments (u : String) : List String :=
  ((splitOnChar (Char.ofNat 47) (urlparsePath u).toList).map String.mk).filter (fun p => !(p == ""))

/-- Strip a trailing `.git` from the last path segment, as the source does
before truncating to owner/repo. -/
def stripLastGit : List String → List String
  | [] => []
  | [x] => if strEndsWith x ".git" then [strDropRight x 4] else [x]
  | x :: y :: rest => x :: stripLastGit (y :: rest)

/-- Owner/repo extraction of `verify_github_repo`: `.git` stripped from the
final segment, then the list truncated to its first two segments; fewer
than two segments is a parse failure. -/
def parseOwnerRepo (u : String) : Option (String × String) :=
  let parts := stripLastGit (pathSegments (normalizedUrl u))
  let parts := if parts.length > 2 then parts.take 2 else parts
  match parts with
  | a :: b :: _ => some (a, b)
  | _ => none

/-- The GitHub contents API URL built from the encoded owner and repo. -/
def contentsApiUrl (owner repo : String) : String :=
  "https://api.github.com/repos/" ++ pyQuote owner ++ "/" ++ pyQuote repo ++ "/contents"

/-- One entry of the repository root listing returned by the contents API. -/
structure RepoEntry where
  type : String
  name : String
deriving Repr, DecidableEq

/-- An API response as observed by the verifier: status code, the two
rate-limit headers, the JSON `message` field (none when the body is not a
JSON object with a message), the raw text, and the parsed directory
listing when the body is a JSON array. -/
structure ApiResponse where
  status : Nat
  rateLimitRemaining : Option String
  rateLimitReset : Option Nat
  message : Option String
  text : String
  bodyIsList : Bool
  entries : List RepoEntry
deriving Repr, DecidableEq

/-- Outcome of one `requests.get` against the contents API. -/
inductive ApiOutcome where
  | timeout
  | reqError (msg : String)
  | resp (r : ApiResponse)
deriving Repr, DecidableEq

/-- A string wrapped in single quotes. -/
def quoted (s : String) : String :=
  String.singleton apos ++ s ++ String.singleton apos

/-- Python `', '.join(names)`. -/
def joinComma : List String → String
  | [] => ""
  | [x] => x
  | x :: y :: rest => x ++ ", " ++ joinComma (y :: rest)

/-- The 200-path check of `verify_github_repo`: first root entry that is a
directory whose name starts with `.kiro` makes the repository valid;
otherwise invalid with the (at most ten) root directory names listed. -/
def kiroCheck (entries : List RepoEntry) : Bool × String :=
  match entries.find? (fun e => e.type == "dir" && strStartsWith e.name ".kiro") with
  | some e => (true, "Valid - Found folder: " ++ e.name)
  | none =>
      let folderNames := (entries.filter (fun e => e.type == "dir")).map (fun e => e.name)
      if !(folderNames == []) then
        (false, "Invalid - No folder starting with " ++ quoted ".kiro" ++
          " found. Available folders: " ++ joinComma (folderNames.take 10))
      else (false, "Invalid - No folders found in repository root")

/-- Reason string of the 404 branch. -/
def notFound404Reason (githubUrl theApiUrl : String) (message : Option String) : String :=
  match message with
  | none => "Repository not found (404)"
  | some m =>
      if strContains m "Not Found" then
        "Repository not found. Check URL: " ++ githubUrl ++ " -> API: " ++ theApiUrl
      else "Repository not found: " ++ m

/-- Suffix appended to `GitHub API error: <status>` when the body carried a
message. -/
def apiErrSuffix : Option String → String
  | none => ""
  | some m => " - " ++ m

/-- The retry loop of `verify_github_repo` over a logical clock: time
advances only by the `time.sleep` calls of the source (the exponential
backoff at the top of each retry iteration, the rate-limit sleeps, and
the request-error backoff).  Returns the times at which each attempt's
request is issued together with the final `(is_valid, reason)` pair; the
fuel argument equals the number of loop iterations left. -/
def verifyLoop (githubUrl theApiUrl : String) (outcomes : Nat → ApiOutcome)
    (maxRetries : Nat) : Nat → Nat → Nat → List Nat × (Bool × String)
  | _, _, 0 => ([], (false, "Unknown Error"))
  | attempt, t0, fuel + 1 =>
      let t := if attempt > 0 then t0 + min (2 ^ attempt) 60 else t0
      match outcomes attempt with
      | .timeout =>
          if attempt < maxRetries - 1 then
            let rec' := verifyLoop githubUrl theApiUrl outcomes maxRetries (attempt + 1) t fuel
            (t :: rec'.1, rec'.2)
          else ([t], (false, "Request timeout - GitHub API unreachable"))
      | .reqError m =>
          if attempt < maxRetries - 1 then
            let rec' := verifyLoop githubUrl theApiUrl outcomes maxRetries (attempt + 1) (t + 2 ^ attempt) fuel
            (t :: rec'.1, rec'.2)
          else ([t], (false, "Network error: " ++ m))
      | .resp r =>
          if r.status == 429 then
            match r.rateLimitReset with
            | some resetTime =>
                let waitSeconds := resetTime - t
                if attempt < maxRetries - 1 then
                  let rec' := verifyLoop githubUrl theApiUrl outcomes maxRetries (attempt + 1)
                    (t + min (waitSeconds + 1) 300) fuel
                  (t :: rec'.1, rec'.2)
                else
                  ([t], (false, "Rate limit exceeded. Reset in " ++ toString waitSeconds ++
                    "s. Add GITHUB_TOKEN to .env for higher limits."))
            | none =>
                if attempt < maxRetries - 1 then
                  let rec' := verifyLoop githubUrl theApiUrl outcomes maxRetries (attempt + 1) (t + 60) fuel
                  (t :: rec'.1, rec'.2)
                else
                  ([t], (false, "Rate limit exceeded. Please wait and try again later, or add GITHUB_TOKEN to .env"))
          else if r.status == 404 then
            ([t], (false, notFound404Reason githubUrl theApiUrl r.message))
          else if r.status == 403 then
            if strContains (pyLower r.text) "rate limit" || r.rateLimitRemaining == some "0" then
              if attempt < maxRetries - 1 then
                let rec' := verifyLoop githubUrl theApiUrl outcomes maxRetries (attempt + 1) (t + 60) fuel
                (t :: rec'.1, rec'.2)
              else ([t], (false, "Rate limit exceeded. Add GITHUB_TOKEN to .env for higher limits."))
            else ([t], (false, "Repository access forbidden (may be private)"))
          else if !(r.status == 200) then
            ([t], (false, "GitHub API error: " ++ toString r.status ++ apiErrSuffix r.message))
          else if !r.bodyIsList then
            ([t], (false, "Invalid repository structure"))
          else
            ([t], kiroCheck r.entries)

/-- Embedding of `verify_github_repo`: URL parsing, then the retry loop.
A URL that does not yield owner/repo fails before any API request (the
attempt-time trace is empty). -/
def verify_github_repo (githubUrl : String) (maxRetries : Nat)
    (outcomes : Nat → ApiOutcome) (t0 : Nat) : List Nat × (Bool × String) :=
  let g := normalizedUrl githubUrl
  match parseOwnerRepo githubUrl with
  | none => ([], (false, "Invalid GitHub URL format. Expected owner/repo, got: " ++ g))
  | some (o, r) => verifyLoop g (contentsApiUrl o r) outcomes maxRetries 0 t0 maxRetries

/-- One JSON line yielded by a validation stream; keys absent from a given
yield are `none`. -/
structure ProgressEvent where
  current : Nat
  total : Nat
  validated : Option Nat
  failed : Option Nat
  updated : Option Nat
  status : String
  summary : Option String
deriving Repr, DecidableEq

/-- The `Processed i/total: <link[:50]>... (` prefix shared by the per-item
status lines. -/
def processedPrefix (i total : Nat) (link : String) : String :=
  "Processed " ++ toString i ++ "/" ++ toString total ++ ": " ++ strTake link 50 ++ "... ("

/-- Status line of the blog validation stream for one completed result. -/
def blogStatusMsg (i total : Nat) (r : VerdictResult) : String :=
  if r.valid && (r.likes > 0 || r.comments > 0) then
    processedPrefix i total r.link ++ "Likes: " ++ toString r.likes ++
      ", Comments: " ++ toString r.comments ++ ")"
  else processedPrefix i total r.link ++ r.reason ++ ")"

/-- Whether a blog submission is selected for validation
(`s.get('project_link')` is truthy). -/
def linkTruthy (s : Submission) : Bool :=
  pyTruthy s.project_link

/-- The result-draining loop of `blog_submissions_validate_stream`:
validates each selected submission, maintains the counters, and emits one
progress event per completed item plus the final summary event. -/
def blogStreamLoop (env : String → ScrapeEnv) (exc : String → Option String)
    (total : Nat) :
    List Submission → Nat → Nat → Nat → Nat → List ProgressEvent × List UpdateCall
  | [], _, validated, failed, updated =>
      ([⟨total, total, none, none, none, "Complete",
         some ("Validated: " ++ toString validated ++ ", Failed: " ++ toString failed ++
           ", Updated likes/comments: " ++ toString updated)⟩], [])
  | s :: rest, processed, validated, failed, updated =>
      let link := s.project_link.getD ""
      let pr := validate_single_submission s (env link) (exc link)
      let processed := processed + 1
      match pr.1 with
      | none =>
          let r2 := blogStreamLoop env exc total rest processed validated failed updated
          (r2.1, pr.2 ++ r2.2)
      | some r =>
          if r.valid then
            let updated2 := if r.likes > 0 || r.comments > 0 then updated + 1 else updated
            let e : ProgressEvent :=
              ⟨processed, total, some (validated + 1), some failed, some updated2,
               blogStatusMsg processed total r, none⟩
            let r2 := blogStreamLoop env exc total rest processed (validated + 1) failed updated2
            (e :: r2.1, pr.2 ++ r2.2)
          else
            let e : ProgressEvent :=
              ⟨processed, total, some validated, some (failed + 1), some updated,
               blogStatusMsg processed total r, none⟩
            let r2 := blogStreamLoop env exc total rest processed validated (failed + 1) updated
            (e :: r2.1, pr.2 ++ r2.2)

/-- Observable output of one run of the blog validation stream: the yielded
events, the storage write-backs, and the submissions on which the
validator was invoked. -/
structure BlogStreamOut where
  events : List ProgressEvent
  writes : List UpdateCall
  invoked : List Submission
deriving Repr, DecidableEq

/-- Embedding of `blog_submissions_validate_stream`: select the
submissions with a truthy link, short-circuit when none, otherwise run the
validation loop over the selection. -/
def blog_submissions_validate_stream (subs : List Submission)
    (env : String → ScrapeEnv) (exc : String → Option String) : BlogStreamOut :=
  let toValidate := subs.filter linkTruthy
  let total := toValidate.length
  if total == 0 then
    ⟨[⟨0, 0, none, none, none, "No submissions with links to validate", none⟩], [], []⟩
  else
    let r := blogStreamLoop env exc total toValidate 0 0 0 0
    ⟨r.1, r.2, toValidate⟩

/-- One call to `KiroSubmission.update` issued by the GitHub validator. -/
structure KiroGithubUpdate where
  week_number : Nat
  email : String
  github_valid : Bool
  github_validation_reason : String
deriving Repr, DecidableEq

/-- Per-submission result dict of `validate_single_kiro_github`. -/
structure KiroGithubResult where
  week_number : Nat
  email : String
  link : String
  valid : Bool
  reason : String
deriving Repr, DecidableEq

/-- Embedding of `validate_single_kiro_github`: verify the repository with
the default retry budget of 3 and write the verdict back. -/
def validate_single_kiro_github (s : KiroSubmission)
    (outcomes : Nat → ApiOutcome) (t0 : Nat) :
    Option KiroGithubResult × List KiroGithubUpdate :=
  match s.github_link with
  | none => (none, [])
  | some link =>
      if link == "" then (none, [])
      else
        let vr := (verify_github_repo link 3 outcomes t0).2
        (some ⟨s.week_number, s.email, link, vr.1, vr.2⟩,
         [⟨s.week_number, s.email, vr.1, vr.2⟩])

/-- An action of the GitHub validation stream: yielding a progress line or
sleeping between completed requests. -/
inductive StreamAction where
  | emit (e : ProgressEvent)
  | sleep (secs : Nat)
deriving Repr, DecidableEq

/-- Worker-pool size of the GitHub validation stream: 10 with a token,
1 without. -/
def githubStreamMaxWorkers (token : Option String) : Nat :=
  if pyTruthy token then 10 else 1

/-- Worker-pool size of the blog validation stream. -/
def blogStreamMaxWorkers : Nat := 10

/-- Status line of the GitHub validation stream for one completed result. -/
def kiroGithubStatusMsg (i total : Nat) (r : KiroGithubResult) : String :=
  if r.valid then processedPrefix i total r.link ++ r.reason ++ ")"
  else if strContains (pyLower r.reason) "rate limit" then
    "Processed " ++ toString i ++ "/" ++ toString total ++
      ": Rate limit hit. Consider adding GITHUB_TOKEN to .env"
  else processedPrefix i total r.link ++ r.reason ++ ")"

/-- The result-draining loop of `kiro_submissions_validate_github_stream`:
after each yielded progress line, when no token is configured and items
remain, the loop sleeps one second. -/
def kiroGithubStreamLoop (token : Option String)
    (outs : KiroSubmission → Nat → ApiOutcome) (total : Nat) :
    List KiroSubmission → Nat → Nat → Nat → List StreamAction × List KiroGithubUpdate
  | [], _, validated, failed =>
      ([.emit ⟨total, total, none, none, none, "Complete",
         some ("Validated: " ++ toString validated ++ ", Failed: " ++ toString failed)⟩], [])
  | s :: rest, processed, validated, failed =>
      let pr := validate_single_kiro_github s (outs s) 0
      let processed := processed + 1
      match pr.1 with
      | none =>
          let r2 := kiroGithubStreamLoop token outs total rest processed validated failed
          (r2.1, pr.2 ++ r2.2)
      | some r =>
          let validated2 := if r.valid then validated + 1 else validated
          let failed2 := if r.valid then failed else failed + 1
          let e := StreamAction.emit
            ⟨processed, total, some validated2, some failed2, none,
             kiroGithubStatusMsg processed total r, none⟩
          let sleeps : List StreamAction :=
            if !(pyTruthy token) && processed < total then [.sleep 1] else []
          let r2 := kiroGithubStreamLoop token outs total rest processed validated2 failed2
          (e :: (sleeps ++ r2.1), pr.2 ++ r2.2)

/-- Observable output of one run of the GitHub validation stream. -/
structure KiroGithubStreamOut where
  actions : List StreamAction
  writes : List KiroGithubUpdate
  maxWorkers : Nat
deriving Repr, DecidableEq

/-- Embedding of `kiro_submissions_validate_github_stream` for one week's
submissions: select those with a truthy GitHub link, short-circuit when
none, otherwise emit the start line and run the loop with the
token-dependent pool size. -/
def kiro_submissions_validate_github_stream (token : Option String)
    (subs : List KiroSubmission) (outs : KiroSubmission → Nat → ApiOutcome) :
    KiroGithubStreamOut :=
  let toValidate := subs.filter (fun s => pyTruthy s.github_link)
  if toValidate.length == 0 then
    ⟨[.emit ⟨0, 0, none, none, none, "No GitHub links found to validate", none⟩], [],
     githubStreamMaxWorkers token⟩
  else
    let total := toValidate.length
    let workers := githubStreamMaxWorkers token
    let startMsg :=
      if pyTruthy token then
        "Starting validation with " ++ toString workers ++ " workers (GitHub token detected)..."
      else
        "Starting validation with " ++ toString workers ++
          " worker (no token - limited to 60 requests/hour). Add GITHUB_TOKEN to .env for faster validation..."
    let r := kiroGithubStreamLoop token outs total toValidate 0 0 0
    ⟨.emit ⟨0, total, none, none, none, startMsg, none⟩ :: r.1, r.2, workers⟩

/-- Classification of a fetch outcome as a transient network error: a
timeout, a connection failure, or a request exception that the handlers of
`scrape_blog_metrics` do not interpret as a 404. -/
def transientOutcome : FetchOutcome → Bool
  | .timeout => true
  | .connError => true
  | .reqError m st => !(strContains m "404" || st == some 404)
  | .success _ => false

/-- The error string `scrape_blog_metrics` produces for a transient
network outcome. -/
def transientReason : FetchOutcome → String
  | .timeout => "Request timeout"
  | .connError => "Connection error"
  | .reqError m _ => "Request error: " ++ m
  | .success _ => ""

/-- The URL normalization as claim C5 words it: prepend a scheme when
missing, take the first two non-empty path segments as owner and repo,
strip a trailing `.git` suffix from the repo name, and ignore all further
path segments. -/
def claimParseOwnerRepo (u : String) : Option (String × String) :=
  match pathSegments (normalizedUrl u) with
  | a :: b :: _ => some (a, if strEndsWith b ".git" then strDropRight b 4 else b)
  | _ => none

/-- The normalization as amended: `.git` is stripped from the FINAL path
segment before the extra segments are discarded, so it reaches the repo
name only when the repo is the final segment. -/
def amendedParseOwnerRepo (u : String) : Option (String × String) :=
  match pathSegments (normalizedUrl u) with
  | a :: b :: rest =>
      some (a, if rest.isEmpty && strEndsWith b ".git" then strDropRight b 4 else b)
  | _ => none

/-- Number of sleep actions in a stream trace. -/
def sleepCount (acts : List StreamAction) : Nat :=
  acts.countP (fun a => match a with | .sleep _ => true | .emit _ => false)

/-- Number of yielded progress lines in a stream trace. -/
def emitCount (acts : List StreamAction) : Nat :=
  acts.countP (fun a => match a with | .sleep _ => false | .emit _ => true)

/-- Whether a kiro submission is selected for blog validation
(`s.get('blog_link')` is truthy). -/
def kiroBlogLinkTruthy (s : KiroSubmission) : Bool :=
  pyTruthy s.blog_link

/-- Whether a kiro submission is selected for repository validation
(`s.get('github_link')` is truthy). -/
def kiroGithubLinkTruthy (s : KiroSubmission) : Bool :=
  pyTruthy s.github_link

/-- Status line of the kiro blog validation stream for one completed
result (same format as the blog stream). -/
def kiroBlogStatusMsg (i total : Nat) (r : KiroVerdictResult) : String :=
  if r.valid && (r.likes > 0 || r.comments > 0) then
    processedPrefix i total r.link ++ "Likes: " ++ toString r.likes ++
      ", Comments: " ++ toString r.comments ++ ")"
  else processedPrefix i total r.link ++ r.reason ++ ")"

/-- The result-draining loop of `kiro_submissions_validate_stream`:
validates each selected kiro blog submission, maintains the counters, and
emits one progress event per completed item plus the final summary. -/
def kiroBlogStreamLoop (env : String → ScrapeEnv) (exc : String → Option String)
    (total : Nat) :
    List KiroSubmission → Nat → Nat → Nat → Nat → List ProgressEvent × List KiroUpdateCall
  | [], _, validated, failed, updated =>
      ([⟨total, total, none, none, none, "Complete",
         some ("Validated: " ++ toString validated ++ ", Failed: " ++ toString failed ++
           ", Updated likes/comments: " ++ toString updated)⟩], [])
  | s :: rest, processed, validated, failed, updated =>
      let link := s.blog_link.getD ""
      let pr := validate_single_kiro_submission s (env link) (exc link)
      let processed := processed + 1
      match pr.1 with
      | none =>
          let r2 := kiroBlogStreamLoop env exc total rest processed validated failed updated
          (r2.1, pr.2 ++ r2.2)
      | some r =>
          if r.valid then
            let updated2 := if r.likes > 0 || r.comments > 0 then updated + 1 else updated
            let e : ProgressEvent :=
              ⟨processed, total, some (validated + 1), some failed, some updated2,
               kiroBlogStatusMsg processed total r, none⟩
            let r2 := kiroBlogStreamLoop env exc total rest processed (validated + 1) failed updated2
            (e :: r2.1, pr.2 ++ r2.2)
          else
            let e : ProgressEvent :=
              ⟨processed, total, some validated, some (failed + 1), some updated,
               kiroBlogStatusMsg processed total r, none⟩
            let r2 := kiroBlogStreamLoop env exc total rest processed validated (failed + 1) updated
            (e :: r2.1, pr.2 ++ r2.2)

/-- Observable output of one run of the kiro blog validation stream. -/
structure KiroBlogStreamOut where
  events : List ProgressEvent
  writes : List KiroUpdateCall
  invoked : List KiroSubmission
deriving Repr, DecidableEq

/-- Embedding of `kiro_submissions_validate_stream` for one week's
submissions: select those with a truthy blog link, short-circuit when
none, otherwise run the validation loop over the selection with the same
worker pool as the blog stream. -/
def kiro_submissions_validate_stream (subs : List KiroSubmission)
    (env : String → ScrapeEnv) (exc : String → Option String) : KiroBlogStreamOut :=
  let toValidate := subs.filter kiroBlogLinkTruthy
  let total := toValidate.length
  if total == 0 then
    ⟨[⟨0, 0, none, none, none, "No blog links found to validate", none⟩], [], []⟩
  else
    let r := kiroBlogStreamLoop env exc total toValidate 0 0 0 0
    ⟨r.1, r.2, toValidate⟩

/-! ### Helper lemmas about the string model -/

theorem isPrefixOf_append_self (l t : List Char) : l.isPrefixOf (l ++ t) = true := by
  induction l with
  | nil => simp [List.isPrefixOf]
  | cons a as ih => simp [List.isPrefixOf, ih]

theorem isPrefixOf_refl (l : List Char) : l.isPrefixOf l = true := by
  have h := isPrefixOf_append_self l []
  simp only [List.append_nil] at h
  exact h

theorem isPrefixOf_extend (n : List Char) : ∀ h t : List Char,
    n.isPrefixOf h = true → n.isPrefixOf (h ++ t) = true := by
  induction n with
  | nil => intro h t _; simp [List.isPrefixOf]
  | cons a as ih =>
      intro h t hp
      cases h with
      | nil => simp [List.isPrefixOf] at hp
      | cons b bs =>
          simp only [List.isPrefixOf, Bool.and_eq_true] at hp
          simp only [List.cons_append, List.isPrefixOf, Bool.and_eq_true]
          exact ⟨hp.1, ih bs t hp.2⟩

theorem listContainsSeq_nil_needle (h : List Char) : listContainsSeq [] h = true := by
  cases h with
  | nil => simp [listContainsSeq, List.isPrefixOf]
  | cons c r => simp [listContainsSeq, List.isPrefixOf]

theorem listContainsSeq_of_isPrefixOf {n h : List Char}
    (hp : n.isPrefixOf h = true) : listContainsSeq n h = true := by
  cases h with
  | nil => simpa [listContainsSeq] using hp
  | cons c r => simp [listContainsSeq, hp]

theorem listContainsSeq_append_right {n : List Char} (h1 : List Char) {h2 : List Char}
    (hc : listContainsSeq n h2 = true) : listContainsSeq n (h1 ++ h2) = true := by
  induction h1 with
  | nil => simpa using hc
  | cons c rest ih => simp [listContainsSeq, ih]

theorem listContainsSeq_append_left {n h1 : List Char} (h2 : List Char)
    (hc : listContainsSeq n h1 = true) : listContainsSeq n (h1 ++ h2) = true := by
  induction h1 with
  | nil =>
      cases n with
      | nil => exact listContainsSeq_nil_needle h2
      | cons a as => simp [listContainsSeq, List.isPrefixOf] at hc
  | cons c rest ih =>
      simp only [listContainsSeq, Bool.or_eq_true] at hc
      rcases hc with hp | hr
      · have := isPrefixOf_extend n (c :: rest) h2 hp
        simp only [List.cons_append, listContainsSeq, Bool.or_eq_true]
        exact Or.inl (by simpa using this)
      · simp only [List.cons_append, listContainsSeq, Bool.or_eq_true]
        exact Or.inr (ih hr)

theorem toList_append (a b : String) : (a ++ b).toList = a.toList ++ b.toList := by
  simp [String.toList, String.data_append]

theorem strContains_refl (s : String) : strContains s s = true :=
  listContainsSeq_of_isPrefixOf (isPrefixOf_refl s.toList)

theorem strContains_append_left {a : String} (b : String) {n : String}
    (hc : strContains a n = true) : strContains (a ++ b) n = true := by
  unfold strContains at hc ⊢
  rw [toList_append]
  exact listContainsSeq_append_left b.toList hc

theorem strContains_append_right (a : String) {b n : String}
    (hc : strContains b n = true) : strContains (a ++ b) n = true := by
  unfold strContains at hc ⊢
  rw [toList_append]
  exact listContainsSeq_append_right a.toList hc

theorem strContains_self_append (n rest : String) : strContains (n ++ rest) n = true := by
  unfold strContains
  rw [toList_append]
  exact listContainsSeq_of_isPrefixOf (isPrefixOf_append_self n.toList rest.toList)

theorem joinComma_contains : ∀ (l : List String) (x : String), x ∈ l →
    strContains (joinComma l) x = true := by
  intro l
  induction l with
  | nil => intro x hx; cases hx
  | cons a rest ih =>
      intro x hx
      cases rest with
      | nil =>
          have hxa : x = a := by simpa using hx
          subst hxa
          simpa [joinComma] using strContains_refl x
      | cons b rest2 =>
          rcases List.mem_cons.mp hx with hxa | hxr
          · subst hxa
            show strContains (x ++ ", " ++ joinComma (b :: rest2)) x = true
            exact strContains_append_left _ (strContains_append_left _ (strContains_refl x))
          · show strContains (a ++ ", " ++ joinComma (b :: rest2)) x = true
            exact strContains_append_right _ (ih x hxr)

/-! ### Case characterization of the per-submission verdict -/

theorem validateCore_cases (link : String) (env : ScrapeEnv) (exc : Option String) :
    (∃ m, exc = some m ∧ validateCore link env exc = (false, "System Error: " ++ m, 0, 0)) ∨
    (exc = none ∧ (strContains link "community.aws" || strContains link "builder.aws.com") = false ∧
      validateCore link env exc = (false, "Invalid Domain", 0, 0)) ∨
    (exc = none ∧ (strContains link "community.aws" || strContains link "builder.aws.com") = true ∧
      (((scrape_blog_metrics link env).is404 || scrapeErr404 (scrape_blog_metrics link env).error) = true ∧
        validateCore link env exc = (false, "404 Not Found", 0, 0) ∨
       ((scrape_blog_metrics link env).is404 || scrapeErr404 (scrape_blog_metrics link env).error) = false ∧
        validateCore link env exc =
          (true, verifiedReason (scrape_blog_metrics link env).error,
           (scrape_blog_metrics link env).likes, (scrape_blog_metrics link env).comments))) := by
  cases exc with
  | some m => exact Or.inl ⟨m, rfl, rfl⟩
  | none =>
      by_cases hd : (strContains link "community.aws" || strContains link "builder.aws.com") = true
      · refine Or.inr (Or.inr ⟨rfl, hd, ?_⟩)
        by_cases h4 : ((scrape_blog_metrics link env).is404 ||
            scrapeErr404 (scrape_blog_metrics link env).error) = true
        · exact Or.inl ⟨h4, by simp [validateCore, hd, h4]⟩
        · refine Or.inr ⟨by simpa using h4, ?_⟩
          simp only [validateCore, hd, if_true]
          rw [if_neg (by simpa using h4)]
      · refine Or.inr (Or.inl ⟨rfl, by simpa using hd, ?_⟩)
        simp [validateCore, Bool.not_eq_true _ ▸ hd]

/-! ### C1: transient network error during article validation -/

/-- C1 counterexample: a `community.aws` submission whose fetch times out
is marked `is_valid = true` with reason `Verified but Request timeout`,
not `is_valid = false` as claimed. -/
theorem c1_counterexample :
    validate_single_submission
      ⟨"w1", "a@b.c", some "https://community.aws/content/post-1", false, "", 0, 0⟩
      ⟨.page ⟨"", "", [], []⟩, .timeout⟩ none =
    (some ⟨"w1", "a@b.c", "https://community.aws/content/post-1", true,
       "Verified but Request timeout", 0, 0⟩,
     [⟨"w1", "a@b.c", true, "Verified but Request timeout", 0, 0⟩]) := by
  rfl

/-- C1 (amended): a submission whose link contains an accepted host
fragment and whose plain-HTTP extraction ends with a transient network
error (timeout, connection failure, or a request exception not read as a
404) receives a success verdict `is_valid = true` with reason
`Verified but <error>` and zero likes/comments, written back once;
no retry budget exists on this path. -/
theorem c1_transient_error_is_marked_valid
    (s : Submission) (env : ScrapeEnv) (link : String)
    (hl : s.project_link = some link) (hne : ¬(link = ""))
    (hcomm : strContains link "community.aws" = true)
    (hnb : strContains link "builder.aws.com" = false)
    (htr : transientOutcome env.plain = true)
    (h404 : strContains (transientReason env.plain) "404" = false) :
    validate_single_submission s env none =
      (some ⟨s.workshop_name, s.email, link, true,
         "Verified but " ++ transientReason env.plain, 0, 0⟩,
       [⟨s.workshop_name, s.email, true, "Verified but " ++ transientReason env.plain, 0, 0⟩]) := by
  have hbeq : (link == "") = false := beq_eq_false_iff_ne.mpr hne
  have hscrape : scrape_blog_metrics link env = scrapePlain link env.plain := by
    simp [scrape_blog_metrics, hnb]
  cases hp : env.plain with
  | timeout =>
      rw [hp] at h404
      simp only [transientReason] at h404
      simp [validate_single_submission, hl, hbeq, validateCore, hcomm, hscrape, hp,
        scrapePlain, scrapeErr404, verifiedReason, transientReason, h404]
  | connError =>
      rw [hp] at h404
      simp only [transientReason] at h404
      simp [validate_single_submission, hl, hbeq, validateCore, hcomm, hscrape, hp,
        scrapePlain, scrapeErr404, verifiedReason, transientReason, h404]
  | reqError m st =>
      rw [hp] at htr h404
      have hcond : (strContains m "404" || st == some 404) = false := by
        simpa [transientOutcome, -Bool.or_eq_true] using htr
      have hmr : strContains ("Request error: " ++ m) "404" = false := by
        simpa [transientReason] using h404
      have hner : ¬(("Request error: " ++ m) = "") := by
        intro h
        have hlen := congrArg String.length h
        rw [String.length_append] at hlen
        simp at hlen
        exact (by decide : ¬("Request error: ".length = 0)) hlen.1
      have hbeq2 : (("Request error: " ++ m) == "") = false :=
        beq_eq_false_iff_ne.mpr hner
      simp [validate_single_submission, hl, hbeq, validateCore, hcomm, hscrape, hp,
        scrapePlain, hcond, scrapeErr404, verifiedReason, transientReason, hmr, hbeq2]
  | success resp =>
      rw [hp] at htr
      simp [transientOutcome] at htr

/-- C1 witness: the amended theorem applied to a concrete timed-out
submission. -/
theorem c1_witness :
    validate_single_submission
      ⟨"w2", "c@d.e", some "https://community.aws/content/p2", true, "Verified", 9, 9⟩
      ⟨.page ⟨"", "", [], []⟩, .timeout⟩ none =
    (some ⟨"w2", "c@d.e", "https://community.aws/content/p2", true,
       "Verified but Request timeout", 0, 0⟩,
     [⟨"w2", "c@d.e", true, "Verified but Request timeout", 0, 0⟩]) := by
  have h := c1_transient_error_is_marked_valid
    ⟨"w2", "c@d.e", some "https://community.aws/content/p2", true, "Verified", 9, 9⟩
    ⟨.page ⟨"", "", [], []⟩, .timeout⟩ "https://community.aws/content/p2"
    rfl (by decide) (by decide) (by decide) (by decide) (by decide)
  exact h

/-! ### C2: every validation attempt performs exactly one write-back -/

/-- C2: a submission with a non-empty link that enters validation causes
exactly one storage write-back carrying the fresh verdict; the write does
not depend on the previously stored validity, reason, likes or comments,
and applying it overwrites those stored fields — for both the blog
validator and the kiro blog validator. -/
theorem c2_single_writeback_overwrites :
    (∀ (s : Submission) (env : ScrapeEnv) (exc : Option String) (link : String),
      s.project_link = some link → ¬(link = "") →
      ∃ r : VerdictResult,
        (validate_single_submission s env exc).1 = some r ∧
        (validate_single_submission s env exc).2 =
          [⟨s.workshop_name, s.email, r.valid, r.reason, r.likes, r.comments⟩] ∧
        (∀ v rr lk cm,
          validate_single_submission
            { s with valid := v, validation_reason := rr, likes := lk, comments := cm } env exc =
          validate_single_submission s env exc) ∧
        (∀ t : Submission, t.workshop_name = s.workshop_name → t.email = s.email →
          applyUpdate [t] ⟨s.workshop_name, s.email, r.valid, r.reason, r.likes, r.comments⟩ =
            [{ t with valid := r.valid, validation_reason := r.reason,
                      likes := r.likes, comments := r.comments }])) ∧
    (∀ (s : KiroSubmission) (env : ScrapeEnv) (exc : Option String) (link : String),
      s.blog_link = some link → ¬(link = "") →
      ∃ r : KiroVerdictResult,
        (validate_single_kiro_submission s env exc).1 = some r ∧
        (validate_single_kiro_submission s env exc).2 =
          [⟨s.week_number, s.email, r.valid, r.reason, r.likes, r.comments⟩] ∧
        (∀ v rr lk cm,
          validate_single_kiro_submission
            { s with valid := v, validation_reason := rr, likes := lk, comments := cm } env exc =
          validate_single_kiro_submission s env exc) ∧
        (∀ t : KiroSubmission, t.week_number = s.week_number → t.email = s.email →
          applyKiroUpdate [t] ⟨s.week_number, s.email, r.valid, r.reason, r.likes, r.comments⟩ =
            [{ t with valid := r.valid, validation_reason := r.reason,
                      likes := r.likes, comments := r.comments }])) := by
  constructor
  · intro s env exc link hl hne
    have hbeq : (link == "") = false := beq_eq_false_iff_ne.mpr hne
    refine ⟨⟨s.workshop_name, s.email, link, (validateCore link env exc).1,
      (validateCore link env exc).2.1, (validateCore link env exc).2.2.1,
      (validateCore link env exc).2.2.2⟩, ?_, ?_, ?_, ?_⟩
    · simp [validate_single_submission, hl, hbeq]
    · simp [validate_single_submission, hl, hbeq]
    · intro v rr lk cm
      simp [validate_single_submission, hl, hbeq]
    · intro t ht1 ht2
      simp [applyUpdate, ht1, ht2]
  · intro s env exc link hl hne
    have hbeq : (link == "") = false := beq_eq_false_iff_ne.mpr hne
    refine ⟨⟨s.week_number, s.email, link, (validateCore link env exc).1,
      (validateCore link env exc).2.1, (validateCore link env exc).2.2.1,
      (validateCore link env exc).2.2.2⟩, ?_, ?_, ?_, ?_⟩
    · simp [validate_single_kiro_submission, hl, hbeq]
    · simp [validate_single_kiro_submission, hl, hbeq]
    · intro v rr lk cm
      simp [validate_single_kiro_submission, hl, hbeq]
    · intro t ht1 ht2
      simp [applyKiroUpdate, ht1, ht2]

/-- C2 witness: the blog half of the write-back theorem applied to a
concrete invalid-domain submission with stale stored values. -/
theorem c2_witness :
    ∃ r : VerdictResult,
      (validate_single_submission
        ⟨"w1", "u@x", some "https://example.org/post", true, "Verified", 3, 4⟩
        ⟨.page ⟨"", "", [], []⟩, .timeout⟩ none).1 = some r ∧
      (validate_single_submission
        ⟨"w1", "u@x", some "https://example.org/post", true, "Verified", 3, 4⟩
        ⟨.page ⟨"", "", [], []⟩, .timeout⟩ none).2 =
        [⟨"w1", "u@x", r.valid, r.reason, r.likes, r.comments⟩] ∧
      (∀ v rr lk cm,
        validate_single_submission
          ⟨"w1", "u@x", some "https://example.org/post", v, rr, lk, cm⟩
          ⟨.page ⟨"", "", [], []⟩, .timeout⟩ none =
        validate_single_submission
          ⟨"w1", "u@x", some "https://example.org/post", true, "Verified", 3, 4⟩
          ⟨.page ⟨"", "", [], []⟩, .timeout⟩ none) ∧
      (∀ t : Submission, t.workshop_name = "w1" → t.email = "u@x" →
        applyUpdate [t] ⟨"w1", "u@x", r.valid, r.reason, r.likes, r.comments⟩ =
          [{ t with valid := r.valid, validation_reason := r.reason,
                    likes := r.likes, comments := r.comments }]) :=
  c2_single_writeback_overwrites.1
    ⟨"w1", "u@x", some "https://example.org/post", true, "Verified", 3, 4⟩
    ⟨.page ⟨"", "", [], []⟩, .timeout⟩ none "https://example.org/post" rfl (by decide)

/-! ### C10: invalid verdicts zero the engagement metrics -/

/-- C10: whenever a submission with a non-empty link ends invalid for any
reason (invalid domain, not-found, or an internal exception), the result
and the write-back carry likes = 0 and comments = 0, overwriting any
previously stored metrics. -/
theorem c10_invalid_verdict_zeroes_metrics
    (s : Submission) (env : ScrapeEnv) (exc : Option String) (link : String)
    (r : VerdictResult)
    (hl : s.project_link = some link) (hne : ¬(link = ""))
    (hr : (validate_single_submission s env exc).1 = some r)
    (hv : r.valid = false) :
    r.likes = 0 ∧ r.comments = 0 ∧
      (validate_single_submission s env exc).2 =
        [⟨s.workshop_name, s.email, false, r.reason, 0, 0⟩] := by
  have hbeq : (link == "") = false := beq_eq_false_iff_ne.mpr hne
  rcases validateCore_cases link env exc with ⟨m, _, hc⟩ | ⟨_, _, hc⟩ |
    ⟨_, _, ⟨_, hc⟩ | ⟨h4, hc⟩⟩
  · simp [validate_single_submission, hl, hbeq, hc] at hr ⊢
    rw [← hr]
    exact ⟨rfl, rfl, rfl⟩
  · simp [validate_single_submission, hl, hbeq, hc] at hr ⊢
    rw [← hr]
    exact ⟨rfl, rfl, rfl⟩
  · simp [validate_single_submission, hl, hbeq, hc] at hr ⊢
    rw [← hr]
    exact ⟨rfl, rfl, rfl⟩
  · simp [validate_single_submission, hl, hbeq, hc] at hr
    rw [← hr] at hv
    simp at hv

/-- C10 witness: a concrete invalid-domain submission with stale metrics
is written back with zeros. -/
theorem c10_witness :
    (⟨"w1", "u@x", "http://other.example/p", false, "Invalid Domain", 0, 0⟩ : VerdictResult).likes = 0 ∧
    (⟨"w1", "u@x", "http://other.example/p", false, "Invalid Domain", 0, 0⟩ : VerdictResult).comments = 0 ∧
    (validate_single_submission
      ⟨"w1", "u@x", some "http://other.example/p", true, "Verified", 8, 9⟩
      ⟨.page ⟨"", "", [], []⟩, .timeout⟩ none).2 =
      [⟨"w1", "u@x", false, "Invalid Domain", 0, 0⟩] :=
  c10_invalid_verdict_zeroes_metrics
    ⟨"w1", "u@x", some "http://other.example/p", true, "Verified", 8, 9⟩
    ⟨.page ⟨"", "", [], []⟩, .timeout⟩ none "http://other.example/p"
    ⟨"w1", "u@x", "http://other.example/p", false, "Invalid Domain", 0, 0⟩
    rfl (by decide) (by rfl) (by rfl)

/-! ### C3: not-found detection on the rendered path -/

/-- C3 counterexample: a rendered page whose early page content contains
the phrase `not found` (with no `404` token, no not-found title and no
not-found sentence) is NOT detected as a 404: the extractor returns
`(0, 0, none, false)` and the verdict is written back as valid. -/
theorem c3_counterexample :
    strContains
      (strTake (pyLower (RenderedPage.mk "Example Blog" "some of this content is not found here" [] []).source) 2000)
      "not found" = true ∧
    scrape_blog_metrics "https://builder.aws.com/content/x"
      ⟨.page ⟨"Example Blog", "some of this content is not found here", [], []⟩, .timeout⟩ =
      ⟨0, 0, none, false⟩ ∧
    validate_single_submission
      ⟨"w1", "a@b.c", some "https://builder.aws.com/content/x", false, "", 0, 0⟩
      ⟨.page ⟨"Example Blog", "some of this content is not found here", [], []⟩, .timeout⟩ none =
      (some ⟨"w1", "a@b.c", "https://builder.aws.com/content/x", true, "Verified", 0, 0⟩,
       [⟨"w1", "a@b.c", true, "Verified", 0, 0⟩]) := by
  exact ⟨by decide, by rfl, by rfl⟩

/-- C3 (amended): on the rendered path (link contains `builder.aws.com`),
a page whose lower-cased title contains `404` or `not found`, or whose
first 2000 characters of lower-cased source contain `404`, or whose
lower-cased source contains the literal not-found sentence, makes the
extractor return `(0, 0, "404 Not Found", true)` and stop, and the
submission is written back invalid with reason `404 Not Found` and both
counts reset to zero. -/
theorem c3_rendered_404_detection
    (s : Submission) (env : ScrapeEnv) (link : String) (p : RenderedPage)
    (hl : s.project_link = some link) (hne : ¬(link = ""))
    (hb : strContains link "builder.aws.com" = true)
    (hpage : env.rendered = .page p)
    (h404 : rendered404 p = true) :
    scrape_blog_metrics link env = ⟨0, 0, some "404 Not Found", true⟩ ∧
    validate_single_submission s env none =
      (some ⟨s.workshop_name, s.email, link, false, "404 Not Found", 0, 0⟩,
       [⟨s.workshop_name, s.email, false, "404 Not Found", 0, 0⟩]) := by
  have hbeq : (link == "") = false := beq_eq_false_iff_ne.mpr hne
  have hscrape : scrape_blog_metrics link env = ⟨0, 0, some "404 Not Found", true⟩ := by
    simp [scrape_blog_metrics, hb, hpage, scrapeRendered, h404]
  refine ⟨hscrape, ?_⟩
  simp [validate_single_submission, hl, hbeq, validateCore, hb, hscrape]

/-- C3 witness: the amended detection theorem applied to a concrete page
whose title carries the `404` token. -/
theorem c3_witness :
    scrape_blog_metrics "https://builder.aws.com/content/y"
      ⟨.page ⟨"404 - Page Not Found", "oops", [], []⟩, .timeout⟩ =
      ⟨0, 0, some "404 Not Found", true⟩ ∧
    validate_single_submission
      ⟨"w1", "a@b.c", some "https://builder.aws.com/content/y", true, "Verified", 7, 8⟩
      ⟨.page ⟨"404 - Page Not Found", "oops", [], []⟩, .timeout⟩ none =
      (some ⟨"w1", "a@b.c", "https://builder.aws.com/content/y", false, "404 Not Found", 0, 0⟩,
       [⟨"w1", "a@b.c", false, "404 Not Found", 0, 0⟩]) :=
  c3_rendered_404_detection
    ⟨"w1", "a@b.c", some "https://builder.aws.com/content/y", true, "Verified", 7, 8⟩
    ⟨.page ⟨"404 - Page Not Found", "oops", [], []⟩, .timeout⟩
    "https://builder.aws.com/content/y" ⟨"404 - Page Not Found", "oops", [], []⟩
    rfl (by decide) (by decide) rfl (by decide)

/-! ### C4: a located "0" counts as found, not absent -/

/-- C4: a span whose text is `0` is accepted by the digit-scan exactly
like any other number (first conjunct), and a page that is not a
not-found page whose Like control yields the located value 0 produces the
verdict valid = true with likes = 0 — on the rendered path (second
conjunct) and on the plain path with the action-text span reading `0`
(third conjunct). -/
theorem c4_zero_count_is_found :
    (∀ (pre rest : List String), (∀ x ∈ pre, pyIsDigit (pyStrip x) = false) →
      firstDigitSpan (pre ++ "0" :: rest) = some 0) ∧
    (∀ (s : Submission) (env : ScrapeEnv) (link : String) (p : RenderedPage),
      s.project_link = some link → ¬(link = "") →
      strContains link "builder.aws.com" = true →
      env.rendered = .page p → rendered404 p = false →
      extractCount p.likeButtons = some 0 →
      validate_single_submission s env none =
        (some ⟨s.workshop_name, s.email, link, true, "Verified", 0,
           (extractCount p.commentButtons).getD 0⟩,
         [⟨s.workshop_name, s.email, true, "Verified", 0,
           (extractCount p.commentButtons).getD 0⟩])) ∧
    (∀ (s : Submission) (env : ScrapeEnv) (link : String) (resp : HttpResponse) (b : PlainButton),
      s.project_link = some link → ¬(link = "") →
      strContains link "community.aws" = true →
      strContains link "builder.aws.com" = false →
      env.plain = .success resp → resp.status = 200 →
      strContains (strTake (pyLower resp.page.text) 1000) "404" = false →
      strContains (strTake (pyLower resp.page.text) 1000) "not found" = false →
      resp.page.likeButton = some b → b.actionTextSpan = some "0" →
      validate_single_submission s env none =
        (some ⟨s.workshop_name, s.email, link, true, "Verified", 0,
           plainExtract resp.page.commentButton⟩,
         [⟨s.workshop_name, s.email, true, "Verified", 0,
           plainExtract resp.page.commentButton⟩])) := by
  refine ⟨?_, ?_, ?_⟩
  · intro pre rest hpre
    induction pre with
    | nil =>
        have h0 : pyIsDigit (pyStrip "0") = true := by decide
        have h1 : pyInt (pyStrip "0") = 0 := by decide
        simp [firstDigitSpan, h0, h1]
    | cons a as ih =>
        have ha : pyIsDigit (pyStrip a) = false := hpre a (List.mem_cons_self a as)
        have ih2 := ih (fun x hx => hpre x (List.mem_cons_of_mem a hx))
        simp [firstDigitSpan, ha, ih2]
  · intro s env link p hl hne hb hpage h404 hlike
    have hbeq : (link == "") = false := beq_eq_false_iff_ne.mpr hne
    have hs2 : scrape_blog_metrics link env =
        ⟨(extractCount p.likeButtons).getD 0, (extractCount p.commentButtons).getD 0, none, false⟩ := by
      simp [scrape_blog_metrics, hb, hpage, scrapeRendered, h404]
    rw [hlike] at hs2
    simp [validate_single_submission, hl, hbeq, validateCore, hb, hs2, scrapeErr404, verifiedReason]
  · intro s env link resp b hl hne hcomm hnb hp hst h4a h4b hlb hspan
    have hbeq : (link == "") = false := beq_eq_false_iff_ne.mpr hne
    have hs2 : scrape_blog_metrics link env =
        ⟨plainExtract resp.page.likeButton, plainExtract resp.page.commentButton, none, false⟩ := by
      simp [scrape_blog_metrics, hnb, scrapePlain, hp, hst, h4a, h4b]
    have hpe : plainExtract resp.page.likeButton = 0 := by
      simp [plainExtract, hlb, hspan, pyIsDigit, pyInt]
    rw [hpe] at hs2
    simp [validate_single_submission, hl, hbeq, validateCore, hcomm, hs2, scrapeErr404, verifiedReason]

/-- C4 witness: concrete pages whose Like control reads `0` on both
paths, and a concrete skipped-then-found span list. -/
theorem c4_witness :
    firstDigitSpan (["Like", ""] ++ "0" :: ["7"]) = some 0 ∧
    validate_single_submission
      ⟨"w1", "a@b.c", some "https://builder.aws.com/content/z", false, "", 1, 1⟩
      ⟨.page ⟨"My Post", "body text", [⟨["0"], []⟩], [⟨["5"], []⟩]⟩, .timeout⟩ none =
      (some ⟨"w1", "a@b.c", "https://builder.aws.com/content/z", true, "Verified", 0, 5⟩,
       [⟨"w1", "a@b.c", true, "Verified", 0, 5⟩]) ∧
    validate_single_submission
      ⟨"w2", "c@d.e", some "https://community.aws/content/q", false, "", 1, 1⟩
      ⟨.page ⟨"", "", [], []⟩,
       .success ⟨200, "OK", ⟨"welcome text", some ⟨some "0", []⟩, some ⟨some "3", []⟩⟩⟩⟩ none =
      (some ⟨"w2", "c@d.e", "https://community.aws/content/q", true, "Verified", 0, 3⟩,
       [⟨"w2", "c@d.e", true, "Verified", 0, 3⟩]) := by
  refine ⟨?_, ?_, ?_⟩
  · exact c4_zero_count_is_found.1 ["Like", ""] ["7"] (by decide)
  · have h := c4_zero_count_is_found.2.1
      ⟨"w1", "a@b.c", some "https://builder.aws.com/content/z", false, "", 1, 1⟩
      ⟨.page ⟨"My Post", "body text", [⟨["0"], []⟩], [⟨["5"], []⟩]⟩, .timeout⟩
      "https://builder.aws.com/content/z"
      ⟨"My Post", "body text", [⟨["0"], []⟩], [⟨["5"], []⟩]⟩
      rfl (by decide) (by decide) rfl (by decide) (by decide)
    simpa using h
  · have h := c4_zero_count_is_found.2.2
      ⟨"w2", "c@d.e", some "https://community.aws/content/q", false, "", 1, 1⟩
      ⟨.page ⟨"", "", [], []⟩,
       .success ⟨200, "OK", ⟨"welcome text", some ⟨some "0", []⟩, some ⟨some "3", []⟩⟩⟩⟩
      "https://community.aws/content/q"
      ⟨200, "OK", ⟨"welcome text", some ⟨some "0", []⟩, some ⟨some "3", []⟩⟩⟩
      ⟨some "0", []⟩
      rfl (by decide) (by decide) (by decide) rfl rfl (by decide) (by decide) rfl rfl
    simpa using h

/-! ### C5: repository URL normalization -/

theorem stripLastGit_length : ∀ l : List String, (stripLastGit l).length = l.length := by
  intro l
  induction l with
  | nil => rfl
  | cons x rest ih =>
      cases rest with
      | nil => simp [stripLastGit]; split <;> rfl
      | cons y rest2 => simp [stripLastGit] at ih ⊢; exact ih

/-- C5 counterexample: on `https://github.com/acme/demo.git/tree/main`
the code keeps the repo name `demo.git` — the `.git` strip is applied to
the final segment (`main`), not to the repo segment — whereas the claimed
normalization yields `demo`. -/
theorem c5_counterexample :
    parseOwnerRepo "https://github.com/acme/demo.git/tree/main" = some ("acme", "demo.git") ∧
    claimParseOwnerRepo "https://github.com/acme/demo.git/tree/main" = some ("acme", "demo") := by
  exact ⟨by decide, by decide⟩

/-- C5 (amended): `verify_github_repo` normalizes by prepending a scheme
when missing and taking the first two non-empty path segments as
owner/repo, with a trailing `.git` stripped from the FINAL path segment
before truncation (hence from the repo name exactly when the repo is the
final segment), further segments ignored; and a URL with fewer than two
non-empty path segments fails immediately with a descriptive reason and
issues no API request. -/
theorem c5_url_normalization (u : String) :
    parseOwnerRepo u = amendedParseOwnerRepo u ∧
    (∀ (m : Nat) (outs : Nat → ApiOutcome) (t0 : Nat), parseOwnerRepo u = none →
      verify_github_repo u m outs t0 =
        ([], (false, "Invalid GitHub URL format. Expected owner/repo, got: " ++ normalizedUrl u))) := by
  constructor
  · show parseOwnerRepo u = amendedParseOwnerRepo u
    unfold parseOwnerRepo amendedParseOwnerRepo
    cases hp : pathSegments (normalizedUrl u) with
    | nil => rfl
    | cons a rest =>
        cases rest with
        | nil => cases hg : strEndsWith a ".git" <;> simp [stripLastGit, hg]
        | cons b rest2 =>
            cases rest2 with
            | nil => cases hg : strEndsWith b ".git" <;> simp [stripLastGit, hg]
            | cons c rest3 =>
                have hlen : (stripLastGit (c :: rest3)).length = rest3.length + 1 := by
                  simpa using stripLastGit_length (c :: rest3)
                simp [stripLastGit, hlen]
  · intro m outs t0 hnone
    simp [verify_github_repo, hnone]

/-- C5 witness: the amended theorem applied to a two-segment `.git` URL
and to a one-segment URL (which fails without any API call). -/
theorem c5_witness :
    parseOwnerRepo "github.com/acme/demo.git" = amendedParseOwnerRepo "github.com/acme/demo.git" ∧
    verify_github_repo "https://github.com/onlyowner" 3 (fun _ => .timeout) 0 =
      ([], (false, "Invalid GitHub URL format. Expected owner/repo, got: https://github.com/onlyowner")) := by
  constructor
  · exact (c5_url_normalization "github.com/acme/demo.git").1
  · have h := (c5_url_normalization "https://github.com/onlyowner").2 3 (fun _ => .timeout) 0 (by decide)
    have hn : normalizedUrl "https://github.com/onlyowner" = "https://github.com/onlyowner" := by decide
    rw [hn] at h
    exact h

/-! ### C6: root-level `.kiro` marker detection -/

/-- C6 counterexample: with eleven root directories and no marker, the
failure reason lists only the first ten names — the eleventh sibling
directory (`zzz`) is absent from the reason. -/
theorem c6_counterexample :
    (verify_github_repo "https://github.com/acme/demo" 3
      (fun _ => .resp ⟨200, none, none, none, "", true,
        [⟨"dir", "d01"⟩, ⟨"dir", "d02"⟩, ⟨"dir", "d03"⟩, ⟨"dir", "d04"⟩, ⟨"dir", "d05"⟩,
         ⟨"dir", "d06"⟩, ⟨"dir", "d07"⟩, ⟨"dir", "d08"⟩, ⟨"dir", "d09"⟩, ⟨"dir", "d10"⟩,
         ⟨"dir", "zzz"⟩]⟩) 0).2 =
      (false, "Invalid - No folder starting with " ++ quoted ".kiro" ++
        " found. Available folders: d01, d02, d03, d04, d05, d06, d07, d08, d09, d10") ∧
    strContains ("Invalid - No folder starting with " ++ quoted ".kiro" ++
        " found. Available folders: d01, d02, d03, d04, d05, d06, d07, d08, d09, d10")
      "zzz" = false := by
  exact ⟨by decide, by decide⟩

theorem kiroCheck_found {entries : List RepoEntry} {e : RepoEntry}
    (hf : entries.find? (fun e => e.type == "dir" && strStartsWith e.name ".kiro") = some e) :
    kiroCheck entries = (true, "Valid - Found folder: " ++ e.name) := by
  unfold kiroCheck
  rw [hf]

theorem kiroCheck_none_withdirs {entries : List RepoEntry}
    (hf : entries.find? (fun e => e.type == "dir" && strStartsWith e.name ".kiro") = none)
    (hne : ((entries.filter (fun e => e.type == "dir")).map (fun e => e.name)) ≠ []) :
    kiroCheck entries = (false, "Invalid - No folder starting with " ++ quoted ".kiro" ++
      " found. Available folders: " ++
      joinComma (((entries.filter (fun e => e.type == "dir")).map (fun e => e.name)).take 10)) := by
  unfold kiroCheck
  rw [hf]
  simp [beq_eq_false_iff_ne.mpr hne]

theorem kiroCheck_none_nodirs {entries : List RepoEntry}
    (hf : entries.find? (fun e => e.type == "dir" && strStartsWith e.name ".kiro") = none)
    (hemp : entries.filter (fun e => e.type == "dir") = []) :
    kiroCheck entries = (false, "Invalid - No folders found in repository root") := by
  unfold kiroCheck
  rw [hf]
  simp [hemp]

/-- C6 (amended): on a 200 response with a JSON array, the verdict is
valid iff some root entry is a directory whose name starts with `.kiro`
(only the root listing is inspected); otherwise it is invalid with a
reason that includes the first TEN sibling root directory names (the list
is truncated to ten), or a fixed no-folders message when the root has no
directories. -/
theorem c6_root_marker_detection
    (url : String) (m t0 : Nat) (outs : Nat → ApiOutcome) (r : ApiResponse)
    (o re : String)
    (hparse : parseOwnerRepo url = some (o, re))
    (hm : 1 ≤ m)
    (h0 : outs 0 = .resp r)
    (hst : r.status = 200)
    (hlist : r.bodyIsList = true) :
    ((verify_github_repo url m outs t0).2.1 =
      r.entries.any (fun e => e.type == "dir" && strStartsWith e.name ".kiro")) ∧
    ((r.entries.filter (fun e => e.type == "dir")).isEmpty = false →
      (verify_github_repo url m outs t0).2.1 = false →
      ∀ nm ∈ (((r.entries.filter (fun e => e.type == "dir")).map (fun e => e.name)).take 10),
        strContains (verify_github_repo url m outs t0).2.2 nm = true) ∧
    ((r.entries.filter (fun e => e.type == "dir")).isEmpty = true →
      (verify_github_repo url m outs t0).2.1 = false →
      (verify_github_repo url m outs t0).2.2 = "Invalid - No folders found in repository root") := by
  obtain ⟨f, rfl⟩ : ∃ f, m = f + 1 := ⟨m - 1, by omega⟩
  have hv : verify_github_repo url (f + 1) outs t0 = ([t0], kiroCheck r.entries) := by
    simp [verify_github_repo, hparse, verifyLoop, h0, hst, hlist]
  rw [hv]
  refine ⟨?_, ?_, ?_⟩
  · cases hf : r.entries.find? (fun e => e.type == "dir" && strStartsWith e.name ".kiro") with
    | some e =>
        have hmem := List.mem_of_find?_eq_some hf
        have hp := List.find?_some hf
        have hany : r.entries.any (fun e => e.type == "dir" && strStartsWith e.name ".kiro") = true :=
          List.any_eq_true.mpr ⟨e, hmem, hp⟩
        rw [kiroCheck_found hf, hany]
    | none =>
        have hall := List.find?_eq_none.mp hf
        have hany : r.entries.any (fun e => e.type == "dir" && strStartsWith e.name ".kiro") = false := by
          rw [List.any_eq_false]
          intro x hx
          simpa using hall x hx
        rw [hany]
        by_cases hd : (r.entries.filter (fun e => e.type == "dir")).map (fun e => e.name) = []
        · rw [kiroCheck_none_nodirs hf (by simpa [List.map_eq_nil_iff] using hd)]
        · rw [kiroCheck_none_withdirs hf hd]
  · intro hne hinv nm hnm
    cases hf : r.entries.find? (fun e => e.type == "dir" && strStartsWith e.name ".kiro") with
    | some e =>
        exfalso
        rw [kiroCheck_found hf] at hinv
        simp at hinv
    | none =>
        have hnil : ((r.entries.filter (fun e => e.type == "dir")).map (fun e => e.name)) ≠ [] := by
          intro h
          rw [List.map_eq_nil_iff] at h
          simp [h] at hne
        rw [kiroCheck_none_withdirs hf hnil]
        exact strContains_append_right _ (joinComma_contains _ nm hnm)
  · intro hemp _hinv
    cases hf : r.entries.find? (fun e => e.type == "dir" && strStartsWith e.name ".kiro") with
    | some e =>
        exfalso
        have hmem := List.mem_of_find?_eq_some hf
        have hp := List.find?_some hf
        rw [List.isEmpty_iff] at hemp
        have hin : e ∈ r.entries.filter (fun e => e.type == "dir") := by
          rw [List.mem_filter]
          exact ⟨hmem, (Bool.and_eq_true _ _ |>.mp hp).1⟩
        rw [hemp] at hin
        cases hin
    | none =>
        rw [List.isEmpty_iff] at hemp
        rw [kiroCheck_none_nodirs hf hemp]

/-- C6 witness: the amended theorem applied to a marker-bearing listing
and to a marker-free two-directory listing. -/
theorem c6_witness :
    ((verify_github_repo "https://github.com/acme/demo" 3
        (fun _ => .resp ⟨200, none, none, none, "", true,
          [⟨"dir", "src"⟩, ⟨"dir", ".kiro-config"⟩]⟩) 0).2.1 =
      ([⟨"dir", "src"⟩, ⟨"dir", ".kiro-config"⟩] : List RepoEntry).any
        (fun e => e.type == "dir" && strStartsWith e.name ".kiro")) ∧
    (∀ nm ∈ ((([⟨"dir", "src"⟩, ⟨"dir", "docs"⟩] : List RepoEntry).filter
        (fun e => e.type == "dir")).map (fun e => e.name)).take 10,
      strContains (verify_github_repo "https://github.com/acme/demo" 3
        (fun _ => .resp ⟨200, none, none, none, "", true,
          [⟨"dir", "src"⟩, ⟨"dir", "docs"⟩]⟩) 0).2.2 nm = true) := by
  constructor
  · exact (c6_root_marker_detection "https://github.com/acme/demo" 3 0
      (fun _ => .resp ⟨200, none, none, none, "", true,
        [⟨"dir", "src"⟩, ⟨"dir", ".kiro-config"⟩]⟩)
      ⟨200, none, none, none, "", true, [⟨"dir", "src"⟩, ⟨"dir", ".kiro-config"⟩]⟩
      "acme" "demo" (by decide) (by omega) rfl rfl rfl).1
  · exact (c6_root_marker_detection "https://github.com/acme/demo" 3 0
      (fun _ => .resp ⟨200, none, none, none, "", true,
        [⟨"dir", "src"⟩, ⟨"dir", "docs"⟩]⟩)
      ⟨200, none, none, none, "", true, [⟨"dir", "src"⟩, ⟨"dir", "docs"⟩]⟩
      "acme" "demo" (by decide) (by omega) rfl rfl rfl).2.1 (by decide) (by decide)

/-! ### C7: rate-limit backoff timing and retry-budget exhaustion -/

/-- Time at which the request of a given loop iteration is issued: the
iteration-top exponential backoff applies to every retry iteration. -/
def fireTime (attempt t0 : Nat) : Nat :=
  if attempt > 0 then t0 + min (2 ^ attempt) 60 else t0

/-- One unfolding of the retry loop: the trace is either the single fire
time of a terminal iteration, or that fire time followed by the trace of
the next iteration at some later clock `t1`, where a 429-with-reset
response forces `t1` to sit past the (capped) rate-limit sleep. -/
theorem verifyLoop_shape (g a : String) (outs : Nat → ApiOutcome) (m attempt t0 f : Nat) :
    (verifyLoop g a outs m attempt t0 (f + 1)).1 = [fireTime attempt t0] ∨
    ∃ t1 : Nat, fireTime attempt t0 ≤ t1 ∧
      (∀ r R, outs attempt = .resp r → r.status = 429 → r.rateLimitReset = some R →
        fireTime attempt t0 + min ((R - fireTime attempt t0) + 1) 300 ≤ t1) ∧
      (verifyLoop g a outs m attempt t0 (f + 1)).1 =
        fireTime attempt t0 :: (verifyLoop g a outs m (attempt + 1) t1 f).1 := by
  simp only [verifyLoop]
  cases ho : outs attempt with
  | timeout =>
      by_cases hlt : attempt < m - 1
      · refine Or.inr ⟨fireTime attempt t0, le_refl _, ?_, ?_⟩
        · intro r R hr _ _
          cases hr
        · simp [hlt, fireTime]
      · exact Or.inl (by simp [hlt, fireTime])
  | reqError msg =>
      by_cases hlt : attempt < m - 1
      · refine Or.inr ⟨fireTime attempt t0 + 2 ^ attempt, Nat.le_add_right _ _, ?_, ?_⟩
        · intro r R hr _ _
          cases hr
        · simp [hlt, fireTime]
      · exact Or.inl (by simp [hlt, fireTime])
  | resp r =>
      by_cases h429 : r.status = 429
      · cases hres : r.rateLimitReset with
        | some R =>
            by_cases hlt : attempt < m - 1
            · refine Or.inr ⟨fireTime attempt t0 +
                min ((R - fireTime attempt t0) + 1) 300, Nat.le_add_right _ _, ?_, ?_⟩
              · intro r2 R2 hr2 _ hres2
                cases hr2
                rw [hres] at hres2
                cases hres2
                exact le_refl _
              · simp [h429, hres, hlt, fireTime]
            · exact Or.inl (by simp [h429, hres, hlt, fireTime])
        | none =>
            by_cases hlt : attempt < m - 1
            · refine Or.inr ⟨fireTime attempt t0 + 60, Nat.le_add_right _ _, ?_, ?_⟩
              · intro r2 R2 hr2 _ hres2
                cases hr2
                rw [hres] at hres2
                cases hres2
              · simp [h429, hres, hlt, fireTime]
            · exact Or.inl (by simp [h429, hres, hlt, fireTime])
      · have h429b : (r.status == 429) = false := by
          simpa using h429
        by_cases h404 : r.status = 404
        · exact Or.inl (by simp [h429b, h404, fireTime])
        · have h404b : (r.status == 404) = false := by
            simpa using h404
          by_cases h403 : r.status = 403
          · by_cases hrl : (strContains (pyLower r.text) "rate limit" ||
                r.rateLimitRemaining == some "0") = true
            · by_cases hlt : attempt < m - 1
              · refine Or.inr ⟨fireTime attempt t0 + 60, Nat.le_add_right _ _, ?_, ?_⟩
                · intro r2 R2 hr2 hst2 _
                  cases hr2
                  omega
                · simp [h429b, h404b, h403, hrl, hlt, fireTime]
              · exact Or.inl (by simp [h429b, h404b, h403, hrl, hlt, fireTime])
            · exact Or.inl (by
                simp only [Bool.not_eq_true] at hrl
                simp [h429b, h404b, h403, hrl, fireTime])
          · have h403b : (r.status == 403) = false := by
              simpa using h403
            by_cases h200 : r.status = 200
            · cases hbl : r.bodyIsList with
              | false => exact Or.inl (by simp [h429b, h404b, h403b, h200, hbl, fireTime])
              | true => exact Or.inl (by simp [h429b, h404b, h403b, h200, hbl, fireTime])
            · have h200b : (r.status == 200) = false := by
                simpa using h200
              exact Or.inl (by simp [h429b, h404b, h403b, h200b, fireTime])

/-- The trace of the retry loop starts with the iteration's fire time. -/
theorem verifyLoop_head (g a : String) (outs : Nat → ApiOutcome) (m attempt t0 f : Nat) :
    (verifyLoop g a outs m attempt t0 (f + 1)).1.head? = some (fireTime attempt t0) := by
  rcases verifyLoop_shape g a outs m attempt t0 f with h | ⟨t1, _, _, h⟩ <;> rw [h] <;> rfl

/-- Spacing of consecutive attempts after a 429 with a reset time: the
next attempt is issued no earlier than the reset time, capped at 300
seconds past the current attempt. -/
theorem verifyLoop_429_spacing (g a : String) (outs : Nat → ApiOutcome) (m : Nat) :
    ∀ (fuel attempt t0 i ti tj : Nat) (r : ApiResponse) (R : Nat),
      (verifyLoop g a outs m attempt t0 fuel).1.get? i = some ti →
      (verifyLoop g a outs m attempt t0 fuel).1.get? (i + 1) = some tj →
      outs (attempt + i) = .resp r → r.status = 429 → r.rateLimitReset = some R →
      min R (ti + 300) ≤ tj := by
  intro fuel
  induction fuel with
  | zero =>
      intro attempt t0 i ti tj r R hti _ _ _ _
      simp [verifyLoop] at hti
  | succ f ih =>
      intro attempt t0 i ti tj r R hti htj hout hst hres
      rcases verifyLoop_shape g a outs m attempt t0 f with hsh | ⟨t1, _ht1, h429ob, hsh⟩
      · rw [hsh] at htj
        cases i <;> simp [List.get?] at htj
      · rw [hsh] at hti htj
        cases i with
        | zero =>
            simp [List.get?] at hti
            subst hti
            have hout0 : outs attempt = .resp r := by simpa using hout
            have hob := h429ob r R hout0 hst hres
            cases f with
            | zero =>
                simp [verifyLoop, List.get?] at htj
            | succ f2 =>
                have hhead := verifyLoop_head g a outs m (attempt + 1) t1 f2
                simp only [List.get?] at htj
                rcases hx : (verifyLoop g a outs m (attempt + 1) t1 (f2 + 1)).1 with _ | ⟨x, xs⟩
                · rw [hx] at htj; cases htj
                · rw [hx] at htj
                  rw [hx] at hhead
                  simp at hhead htj
                  subst htj
                  rw [hhead]
                  have hfire : fireTime (attempt + 1) t1 = t1 + min (2 ^ (attempt + 1)) 60 := by
                    simp [fireTime]
                  rw [hfire]
                  generalize min (2 ^ (attempt + 1)) 60 = b
                  omega
        | succ i2 =>
            simp only [List.get?] at hti htj
            have hout2 : outs ((attempt + 1) + i2) = .resp r := by
              have : (attempt + 1) + i2 = attempt + (i2 + 1) := by omega
              rw [this]
              exact hout
            exact ih (attempt + 1) t1 i2 ti tj r R hti htj hout2 hst hres

/-- Exhausting the retry budget on constant 429-with-reset responses
yields a failure whose reason names the rate limit. -/
theorem verifyLoop_429_exhausts (g a : String) (outs : Nat → ApiOutcome) (m : Nat)
    (rs : Nat → ApiResponse)
    (hout : ∀ k, outs k = .resp (rs k)) (hst : ∀ k, (rs k).status = 429)
    (hres : ∀ k, ∃ R, (rs k).rateLimitReset = some R) :
    ∀ fuel attempt t0, attempt + fuel = m → 1 ≤ fuel →
      (verifyLoop g a outs m attempt t0 fuel).2.1 = false ∧
      strContains (verifyLoop g a outs m attempt t0 fuel).2.2 "Rate limit exceeded" = true := by
  intro fuel
  induction fuel with
  | zero => intro attempt t0 _ h1; omega
  | succ f ih =>
      intro attempt t0 hsum _
      obtain ⟨R, hR⟩ := hres attempt
      have hs429 : ((rs attempt).status == 429) = true := by simp [hst attempt]
      cases f with
      | zero =>
          have hlt : ¬(attempt < m - 1) := by omega
          simp only [verifyLoop, hout attempt, hs429, hR, if_neg hlt]
          constructor
          · rfl
          · show strContains (("Rate limit exceeded. Reset in " ++
              toString (R - fireTime attempt t0)) ++
              "s. Add GITHUB_TOKEN to .env for higher limits.") "Rate limit exceeded" = true
            exact strContains_append_left _ (strContains_append_left _ (by decide))
      | succ f2 =>
          have hlt : attempt < m - 1 := by omega
          simp only [verifyLoop, hout attempt, hs429, hR, if_pos hlt]
          exact ih (attempt + 1) _ (by omega) (by omega)

/-- C7 counterexample: with `max_retries = 3` and every attempt answering
429 with an absolute reset time 400 seconds in the future, the attempts
fire at times 0, 302 and 405 — the second attempt is issued at 302
seconds, before the 400-second reset has elapsed (the rate-limit sleep is
capped at 300 seconds). -/
theorem c7_counterexample :
    (verify_github_repo "https://github.com/acme/demo" 3
      (fun _ => .resp ⟨429, some "0", some 400, none, "", false, []⟩) 0).1 = [0, 302, 405] ∧
    302 < 400 := by
  exact ⟨by decide, by decide⟩

/-- C7 (amended): after a 429 whose reset lies N seconds past the current
attempt, the verifier issues its next attempt no earlier than min(N, 300)
seconds later (the rate-limit sleep is capped at 300 seconds, so resets
further than 300 seconds out are not fully honoured); and when every
attempt of the budget answers 429-with-reset, it stops after the budget
and returns a failure whose reason names the rate limit. -/
theorem c7_rate_limit_backoff :
    (∀ (url : String) (m t0 : Nat) (outs : Nat → ApiOutcome) (o re : String),
      parseOwnerRepo url = some (o, re) →
      ∀ (i ti tj : Nat) (r : ApiResponse) (R : Nat),
        (verify_github_repo url m outs t0).1.get? i = some ti →
        (verify_github_repo url m outs t0).1.get? (i + 1) = some tj →
        outs i = .resp r → r.status = 429 → r.rateLimitReset = some R →
        min R (ti + 300) ≤ tj) ∧
    (∀ (url : String) (m t0 : Nat) (outs : Nat → ApiOutcome) (o re : String)
        (rs : Nat → ApiResponse),
      parseOwnerRepo url = some (o, re) → 1 ≤ m →
      (∀ k, outs k = .resp (rs k)) → (∀ k, (rs k).status = 429) →
      (∀ k, ∃ R, (rs k).rateLimitReset = some R) →
      (verify_github_repo url m outs t0).2.1 = false ∧
      strContains (verify_github_repo url m outs t0).2.2 "Rate limit exceeded" = true) := by
  constructor
  · intro url m t0 outs o re hparse i ti tj r R hti htj hout h429 hres
    have hv : verify_github_repo url m outs t0 =
        verifyLoop (normalizedUrl url) (contentsApiUrl o re) outs m 0 t0 m := by
      simp [verify_github_repo, hparse]
    rw [hv] at hti htj
    exact verifyLoop_429_spacing (normalizedUrl url) (contentsApiUrl o re) outs m
      m 0 t0 i ti tj r R hti htj (by simpa using hout) h429 hres
  · intro url m t0 outs o re rs hparse hm hout hst hres
    have hv : verify_github_repo url m outs t0 =
        verifyLoop (normalizedUrl url) (contentsApiUrl o re) outs m 0 t0 m := by
      simp [verify_github_repo, hparse]
    rw [hv]
    exact verifyLoop_429_exhausts (normalizedUrl url) (contentsApiUrl o re) outs m
      rs hout hst hres m 0 t0 (by omega) hm

/-- C7 witness: the amended theorem applied to the concrete all-429 run
with reset 400 seconds out. -/
theorem c7_witness :
    min 400 (0 + 300) ≤ 302 ∧
    ((verify_github_repo "https://github.com/acme/demo" 3
        (fun _ => .resp ⟨429, some "0", some 400, none, "", false, []⟩) 0).2.1 = false ∧
      strContains (verify_github_repo "https://github.com/acme/demo" 3
        (fun _ => .resp ⟨429, some "0", some 400, none, "", false, []⟩) 0).2.2
        "Rate limit exceeded" = true) := by
  constructor
  · exact c7_rate_limit_backoff.1 "https://github.com/acme/demo" 3 0
      (fun _ => .resp ⟨429, some "0", some 400, none, "", false, []⟩) "acme" "demo"
      (by decide) 0 0 302 ⟨429, some "0", some 400, none, "", false, []⟩ 400
      (by decide) (by decide) rfl rfl rfl
  · exact c7_rate_limit_backoff.2 "https://github.com/acme/demo" 3 0
      (fun _ => .resp ⟨429, some "0", some 400, none, "", false, []⟩) "acme" "demo"
      (fun _ => ⟨429, some "0", some 400, none, "", false, []⟩)
      (by decide) (by omega) (fun k => rfl) (fun k => rfl) (fun k => ⟨400, rfl⟩)

/-! ### C8: submissions without a link never enter the batch -/

theorem validate_writes_key (s : Submission) (env : ScrapeEnv) (exc : Option String)
    (w : UpdateCall) (hw : w ∈ (validate_single_submission s env exc).2) :
    w.workshop_name = s.workshop_name ∧ w.email = s.email := by
  cases hpl : s.project_link with
  | none => simp [validate_single_submission, hpl] at hw
  | some link =>
      by_cases hb : (link == "") = true
      · simp [validate_single_submission, hpl, hb] at hw
      · simp [validate_single_submission, hpl, hb] at hw
        rw [hw]
        exact ⟨rfl, rfl⟩

theorem validate_isSome (s : Submission) (env : ScrapeEnv) (exc : Option String)
    (ht : linkTruthy s = true) :
    ∃ r, (validate_single_submission s env exc).1 = some r := by
  unfold linkTruthy pyTruthy at ht
  cases hpl : s.project_link with
  | none => rw [hpl] at ht; cases ht
  | some link =>
      rw [hpl] at ht
      simp only [Bool.not_eq_true'] at ht
      simp [validate_single_submission, hpl, ht]

theorem blogStreamLoop_writes (env : String → ScrapeEnv) (exc : String → Option String)
    (total : Nat) :
    ∀ (l : List Submission) (p v f u : Nat) (w : UpdateCall),
      w ∈ (blogStreamLoop env exc total l p v f u).2 →
      ∃ t ∈ l, w.workshop_name = t.workshop_name ∧ w.email = t.email := by
  intro l
  induction l with
  | nil => intro p v f u w hw; simp [blogStreamLoop] at hw
  | cons s rest ih =>
      intro p v f u w hw
      simp only [blogStreamLoop] at hw
      rcases hres : (validate_single_submission s (env (s.project_link.getD ""))
          (exc (s.project_link.getD ""))).1 with _ | r
      · rw [hres] at hw
        simp only [List.mem_append] at hw
        rcases hw with hw | hw
        · obtain ⟨h1, h2⟩ := validate_writes_key _ _ _ _ hw
          exact ⟨s, List.mem_cons_self s rest, h1, h2⟩
        · obtain ⟨t, hmem, hk⟩ := ih _ _ _ _ _ hw
          exact ⟨t, List.mem_cons_of_mem s hmem, hk⟩
      · by_cases hval : r.valid = true
        · simp [hres, hval, List.mem_append] at hw
          rcases hw with hw | hw
          · obtain ⟨h1, h2⟩ := validate_writes_key _ _ _ _ hw
            exact ⟨s, List.mem_cons_self s rest, h1, h2⟩
          · obtain ⟨t, hmem, hk⟩ := ih _ _ _ _ _ hw
            exact ⟨t, List.mem_cons_of_mem s hmem, hk⟩
        · simp [hres, hval, List.mem_append] at hw
          rcases hw with hw | hw
          · obtain ⟨h1, h2⟩ := validate_writes_key _ _ _ _ hw
            exact ⟨s, List.mem_cons_self s rest, h1, h2⟩
          · obtain ⟨t, hmem, hk⟩ := ih _ _ _ _ _ hw
            exact ⟨t, List.mem_cons_of_mem s hmem, hk⟩

theorem blogStreamLoop_events_length (env : String → ScrapeEnv) (exc : String → Option String)
    (total : Nat) :
    ∀ (l : List Submission) (p v f u : Nat), (∀ s ∈ l, linkTruthy s = true) →
      (blogStreamLoop env exc total l p v f u).1.length = l.length + 1 := by
  intro l
  induction l with
  | nil => intro p v f u _; simp [blogStreamLoop]
  | cons s rest ih =>
      intro p v f u hall
      obtain ⟨r, hres⟩ := validate_isSome s (env (s.project_link.getD ""))
        (exc (s.project_link.getD "")) (hall s (List.mem_cons_self s rest))
      have ihr := fun p2 v2 f2 u2 => ih p2 v2 f2 u2 (fun x hx => hall x (List.mem_cons_of_mem s hx))
      simp only [blogStreamLoop, hres]
      by_cases hval : r.valid = true
      · rw [if_pos hval]
        simp [ihr]
      · rw [if_neg hval]
        simp [ihr]

theorem kiro_validate_writes_key (s : KiroSubmission) (env : ScrapeEnv) (exc : Option String)
    (w : KiroUpdateCall) (hw : w ∈ (validate_single_kiro_submission s env exc).2) :
    w.week_number = s.week_number ∧ w.email = s.email := by
  cases hpl : s.blog_link with
  | none => simp [validate_single_kiro_submission, hpl] at hw
  | some link =>
      by_cases hb : (link == "") = true
      · simp [validate_single_kiro_submission, hpl, hb] at hw
      · simp [validate_single_kiro_submission, hpl, hb] at hw
        rw [hw]
        exact ⟨rfl, rfl⟩

theorem kiro_validate_isSome (s : KiroSubmission) (env : ScrapeEnv) (exc : Option String)
    (ht : kiroBlogLinkTruthy s = true) :
    ∃ r, (validate_single_kiro_submission s env exc).1 = some r := by
  unfold kiroBlogLinkTruthy pyTruthy at ht
  cases hpl : s.blog_link with
  | none => rw [hpl] at ht; cases ht
  | some link =>
      rw [hpl] at ht
      simp only [Bool.not_eq_true'] at ht
      simp [validate_single_kiro_submission, hpl, ht]

theorem kiroBlogStreamLoop_writes (env : String → ScrapeEnv) (exc : String → Option String)
    (total : Nat) :
    ∀ (l : List KiroSubmission) (p v f u : Nat) (w : KiroUpdateCall),
      w ∈ (kiroBlogStreamLoop env exc total l p v f u).2 →
      ∃ t ∈ l, w.week_number = t.week_number ∧ w.email = t.email := by
  intro l
  induction l with
  | nil => intro p v f u w hw; simp [kiroBlogStreamLoop] at hw
  | cons s rest ih =>
      intro p v f u w hw
      simp only [kiroBlogStreamLoop] at hw
      rcases hres : (validate_single_kiro_submission s (env (s.blog_link.getD ""))
          (exc (s.blog_link.getD ""))).1 with _ | r
      · rw [hres] at hw
        simp only [List.mem_append] at hw
        rcases hw with hw | hw
        · obtain ⟨h1, h2⟩ := kiro_validate_writes_key _ _ _ _ hw
          exact ⟨s, List.mem_cons_self s rest, h1, h2⟩
        · obtain ⟨t, hmem, hk⟩ := ih _ _ _ _ _ hw
          exact ⟨t, List.mem_cons_of_mem s hmem, hk⟩
      · by_cases hval : r.valid = true
        · simp [hres, hval, List.mem_append] at hw
          rcases hw with hw | hw
          · obtain ⟨h1, h2⟩ := kiro_validate_writes_key _ _ _ _ hw
            exact ⟨s, List.mem_cons_self s rest, h1, h2⟩
          · obtain ⟨t, hmem, hk⟩ := ih _ _ _ _ _ hw
            exact ⟨t, List.mem_cons_of_mem s hmem, hk⟩
        · simp [hres, hval, List.mem_append] at hw
          rcases hw with hw | hw
          · obtain ⟨h1, h2⟩ := kiro_validate_writes_key _ _ _ _ hw
            exact ⟨s, List.mem_cons_self s rest, h1, h2⟩
          · obtain ⟨t, hmem, hk⟩ := ih _ _ _ _ _ hw
            exact ⟨t, List.mem_cons_of_mem s hmem, hk⟩

theorem kiroBlogStreamLoop_events_length (env : String → ScrapeEnv)
    (exc : String → Option String) (total : Nat) :
    ∀ (l : List KiroSubmission) (p v f u : Nat), (∀ s ∈ l, kiroBlogLinkTruthy s = true) →
      (kiroBlogStreamLoop env exc total l p v f u).1.length = l.length + 1 := by
  intro l
  induction l with
  | nil => intro p v f u _; simp [kiroBlogStreamLoop]
  | cons s rest ih =>
      intro p v f u hall
      obtain ⟨r, hres⟩ := kiro_validate_isSome s (env (s.blog_link.getD ""))
        (exc (s.blog_link.getD "")) (hall s (List.mem_cons_self s rest))
      have ihr := fun p2 v2 f2 u2 => ih p2 v2 f2 u2 (fun x hx => hall x (List.mem_cons_of_mem s hx))
      simp only [kiroBlogStreamLoop, hres]
      by_cases hval : r.valid = true
      · rw [if_pos hval]
        simp [ihr]
      · rw [if_neg hval]
        simp [ihr]

theorem kiro_github_isSome (s : KiroSubmission) (outs : Nat → ApiOutcome) (t0 : Nat)
    (ht : pyTruthy s.github_link = true) :
    ∃ r, (validate_single_kiro_github s outs t0).1 = some r := by
  unfold pyTruthy at ht
  cases hpl : s.github_link with
  | none => rw [hpl] at ht; cases ht
  | some link =>
      rw [hpl] at ht
      simp only [Bool.not_eq_true'] at ht
      simp [validate_single_kiro_github, hpl, ht]

theorem kiro_github_writes_key (s : KiroSubmission) (outs : Nat → ApiOutcome) (t0 : Nat)
    (w : KiroGithubUpdate) (hw : w ∈ (validate_single_kiro_github s outs t0).2) :
    w.week_number = s.week_number ∧ w.email = s.email := by
  cases hpl : s.github_link with
  | none => simp [validate_single_kiro_github, hpl] at hw
  | some link =>
      by_cases hb : (link == "") = true
      · simp [validate_single_kiro_github, hpl, hb] at hw
      · simp [validate_single_kiro_github, hpl, hb] at hw
        rw [hw]
        exact ⟨rfl, rfl⟩

theorem kiroGithubStreamLoop_writes (token : Option String)
    (outs : KiroSubmission → Nat → ApiOutcome) (total : Nat) :
    ∀ (l : List KiroSubmission) (p v f : Nat) (w : KiroGithubUpdate),
      w ∈ (kiroGithubStreamLoop token outs total l p v f).2 →
      ∃ t ∈ l, w.week_number = t.week_number ∧ w.email = t.email := by
  intro l
  induction l with
  | nil => intro p v f w hw; simp [kiroGithubStreamLoop] at hw
  | cons s rest ih =>
      intro p v f w hw
      simp only [kiroGithubStreamLoop] at hw
      rcases hres : (validate_single_kiro_github s (outs s) 0).1 with _ | r
      · rw [hres] at hw
        simp only [List.mem_append] at hw
        rcases hw with hw | hw
        · obtain ⟨h1, h2⟩ := kiro_github_writes_key _ _ _ _ hw
          exact ⟨s, List.mem_cons_self s rest, h1, h2⟩
        · obtain ⟨t, hmem, hk⟩ := ih _ _ _ _ hw
          exact ⟨t, List.mem_cons_of_mem s hmem, hk⟩
      · simp only [hres, List.mem_append] at hw
        rcases hw with hw | hw
        · obtain ⟨h1, h2⟩ := kiro_github_writes_key _ _ _ _ hw
          exact ⟨s, List.mem_cons_self s rest, h1, h2⟩
        · obtain ⟨t, hmem, hk⟩ := ih _ _ _ _ hw
          exact ⟨t, List.mem_cons_of_mem s hmem, hk⟩

theorem kiroGithubStreamLoop_emits (token : Option String)
    (outs : KiroSubmission → Nat → ApiOutcome) (total : Nat) :
    ∀ (l : List KiroSubmission) (p v f : Nat), (∀ s ∈ l, pyTruthy s.github_link = true) →
      emitCount (kiroGithubStreamLoop token outs total l p v f).1 = l.length + 1 := by
  intro l
  induction l with
  | nil => intro p v f _; simp [kiroGithubStreamLoop, emitCount]
  | cons s rest ih =>
      intro p v f hall
      obtain ⟨r, hres⟩ := kiro_github_isSome s (outs s) 0
        (hall s (List.mem_cons_self s rest))
      have ihr := fun v2 f2 => ih (p + 1) v2 f2 (fun x hx => hall x (List.mem_cons_of_mem s hx))
      simp only [kiroGithubStreamLoop, hres]
      by_cases hcond : (!(pyTruthy token) && decide (p + 1 < total)) = true
      · simp [emitCount, List.countP_cons, List.countP_append, hcond]
        exact ihr _ _
      · simp [emitCount, List.countP_cons, List.countP_append, hcond]
        exact ihr _ _

/-- C8: a submission with an empty or absent link never enters any batch
validation route: each per-submission validator (blog article, kiro blog
article, kiro GitHub repository) does nothing for it (no extractor or
verifier run, no write), each stream's output is unchanged when such
submissions are dropped, it never appears among the invoked submissions,
every write-back belongs to a submission with a truthy link, and the
processed/event counts equal the number of submissions with a truthy
link. -/
theorem c8_empty_link_never_validated :
    (∀ (s : Submission) (env : ScrapeEnv) (exc : Option String),
      pyTruthy s.project_link = false → validate_single_submission s env exc = (none, [])) ∧
    (∀ (subs : List Submission) (env : String → ScrapeEnv) (exc : String → Option String),
      blog_submissions_validate_stream subs env exc =
        blog_submissions_validate_stream (subs.filter linkTruthy) env exc) ∧
    (∀ (subs : List Submission) (env : String → ScrapeEnv) (exc : String → Option String)
        (s : Submission), s ∈ subs → linkTruthy s = false →
      s ∉ (blog_submissions_validate_stream subs env exc).invoked) ∧
    (∀ (subs : List Submission) (env : String → ScrapeEnv) (exc : String → Option String)
        (w : UpdateCall), w ∈ (blog_submissions_validate_stream subs env exc).writes →
      ∃ t ∈ subs, linkTruthy t = true ∧ w.workshop_name = t.workshop_name ∧ w.email = t.email) ∧
    (∀ (subs : List Submission) (env : String → ScrapeEnv) (exc : String → Option String),
      (subs.filter linkTruthy).length ≠ 0 →
      (blog_submissions_validate_stream subs env exc).events.length =
        (subs.filter linkTruthy).length + 1) ∧
    (∀ (s : KiroSubmission) (env : ScrapeEnv) (exc : Option String),
      pyTruthy s.blog_link = false → validate_single_kiro_submission s env exc = (none, [])) ∧
    (∀ (subs : List KiroSubmission) (env : String → ScrapeEnv) (exc : String → Option String),
      kiro_submissions_validate_stream subs env exc =
        kiro_submissions_validate_stream (subs.filter kiroBlogLinkTruthy) env exc) ∧
    (∀ (subs : List KiroSubmission) (env : String → ScrapeEnv) (exc : String → Option String)
        (s : KiroSubmission), s ∈ subs → kiroBlogLinkTruthy s = false →
      s ∉ (kiro_submissions_validate_stream subs env exc).invoked) ∧
    (∀ (subs : List KiroSubmission) (env : String → ScrapeEnv) (exc : String → Option String)
        (w : KiroUpdateCall), w ∈ (kiro_submissions_validate_stream subs env exc).writes →
      ∃ t ∈ subs, kiroBlogLinkTruthy t = true ∧ w.week_number = t.week_number ∧
        w.email = t.email) ∧
    (∀ (subs : List KiroSubmission) (env : String → ScrapeEnv) (exc : String → Option String),
      (subs.filter kiroBlogLinkTruthy).length ≠ 0 →
      (kiro_submissions_validate_stream subs env exc).events.length =
        (subs.filter kiroBlogLinkTruthy).length + 1) ∧
    (∀ (s : KiroSubmission) (outs : Nat → ApiOutcome) (t0 : Nat),
      pyTruthy s.github_link = false → validate_single_kiro_github s outs t0 = (none, [])) ∧
    (∀ (token : Option String) (subs : List KiroSubmission)
        (outs : KiroSubmission → Nat → ApiOutcome),
      kiro_submissions_validate_github_stream token subs outs =
        kiro_submissions_validate_github_stream token
          (subs.filter (fun s => pyTruthy s.github_link)) outs) ∧
    (∀ (token : Option String) (subs : List KiroSubmission)
        (outs : KiroSubmission → Nat → ApiOutcome) (w : KiroGithubUpdate),
      w ∈ (kiro_submissions_validate_github_stream token subs outs).writes →
      ∃ t ∈ subs, pyTruthy t.github_link = true ∧ w.week_number = t.week_number ∧
        w.email = t.email) ∧
    (∀ (token : Option String) (subs : List KiroSubmission)
        (outs : KiroSubmission → Nat → ApiOutcome),
      (subs.filter (fun s => pyTruthy s.github_link)).length ≠ 0 →
      emitCount (kiro_submissions_validate_github_stream token subs outs).actions =
        (subs.filter (fun s => pyTruthy s.github_link)).length + 2) := by
  refine ⟨?_, ?_, ?_, ?_, ?_, ?_, ?_, ?_, ?_, ?_, ?_, ?_, ?_, ?_⟩
  · intro s env exc hfalse
    unfold validate_single_submission
    cases hpl : s.project_link with
    | none => rfl
    | some link =>
        rw [hpl] at hfalse
        simp [pyTruthy] at hfalse
        simp [hfalse]
  · intro subs env exc
    unfold blog_submissions_validate_stream
    rw [List.filter_filter]
    simp
  · intro subs env exc s hmem hfalse hinv
    unfold blog_submissions_validate_stream at hinv
    by_cases hz : (subs.filter linkTruthy).length == 0
    · rw [if_pos hz] at hinv
      cases hinv
    · rw [if_neg hz] at hinv
      simp only at hinv
      have := (List.mem_filter.mp hinv).2
      rw [hfalse] at this
      cases this
  · intro subs env exc w hw
    unfold blog_submissions_validate_stream at hw
    by_cases hz : (subs.filter linkTruthy).length == 0
    · rw [if_pos hz] at hw
      cases hw
    · rw [if_neg hz] at hw
      simp only at hw
      obtain ⟨t, hmem, hk⟩ := blogStreamLoop_writes env exc _ _ _ _ _ _ _ hw
      exact ⟨t, (List.mem_filter.mp hmem).1, (List.mem_filter.mp hmem).2, hk⟩
  · intro subs env exc hnz
    unfold blog_submissions_validate_stream
    rw [if_neg (by simpa using hnz)]
    simp only
    exact blogStreamLoop_events_length env exc _ _ 0 0 0 0
      (fun x hx => (List.mem_filter.mp hx).2)
  · intro s env exc hfalse
    unfold validate_single_kiro_submission
    cases hpl : s.blog_link with
    | none => rfl
    | some link =>
        rw [hpl] at hfalse
        simp [pyTruthy] at hfalse
        simp [hfalse]
  · intro subs env exc
    unfold kiro_submissions_validate_stream
    rw [List.filter_filter]
    simp
  · intro subs env exc s hmem hfalse hinv
    unfold kiro_submissions_validate_stream at hinv
    by_cases hz : (subs.filter kiroBlogLinkTruthy).length == 0
    · rw [if_pos hz] at hinv
      cases hinv
    · rw [if_neg hz] at hinv
      simp only at hinv
      have := (List.mem_filter.mp hinv).2
      rw [hfalse] at this
      cases this
  · intro subs env exc w hw
    unfold kiro_submissions_validate_stream at hw
    by_cases hz : (subs.filter kiroBlogLinkTruthy).length == 0
    · rw [if_pos hz] at hw
      cases hw
    · rw [if_neg hz] at hw
      simp only at hw
      obtain ⟨t, hmem, hk⟩ := kiroBlogStreamLoop_writes env exc _ _ _ _ _ _ _ hw
      exact ⟨t, (List.mem_filter.mp hmem).1, (List.mem_filter.mp hmem).2, hk⟩
  · intro subs env exc hnz
    unfold kiro_submissions_validate_stream
    rw [if_neg (by simpa using hnz)]
    simp only
    exact kiroBlogStreamLoop_events_length env exc _ _ 0 0 0 0
      (fun x hx => (List.mem_filter.mp hx).2)
  · intro s outs t0 hfalse
    unfold validate_single_kiro_github
    cases hpl : s.github_link with
    | none => rfl
    | some link =>
        rw [hpl] at hfalse
        simp [pyTruthy] at hfalse
        simp [hfalse]
  · intro token subs outs
    unfold kiro_submissions_validate_github_stream
    rw [List.filter_filter]
    simp
  · intro token subs outs w hw
    unfold kiro_submissions_validate_github_stream at hw
    by_cases hz : ((subs.filter (fun s => pyTruthy s.github_link)).length == 0) = true
    · rw [if_pos hz] at hw
      cases hw
    · rw [if_neg hz] at hw
      simp only at hw
      obtain ⟨t, hmem, hk⟩ := kiroGithubStreamLoop_writes token outs _ _ _ _ _ _ hw
      exact ⟨t, (List.mem_filter.mp hmem).1, (List.mem_filter.mp hmem).2, hk⟩
  · intro token subs outs hnz
    unfold kiro_submissions_validate_github_stream
    rw [if_neg (by simpa using hnz)]
    simp only [emitCount, List.countP_cons]
    have hc := kiroGithubStreamLoop_emits token outs
      (subs.filter (fun s => pyTruthy s.github_link)).length
      (subs.filter (fun s => pyTruthy s.github_link)) 0 0 0
      (fun x hx => (List.mem_filter.mp hx).2)
    simp only [emitCount] at hc
    simp [hc]

/-- C8 witness: the theorem applied to concrete linkless submissions on
each of the three routes, and to a concrete blog batch. -/
theorem c8_witness :
    validate_single_submission ⟨"w1", "a@b.c", none, true, "Verified", 4, 5⟩
      ⟨.page ⟨"", "", [], []⟩, .timeout⟩ none = (none, []) ∧
    validate_single_submission ⟨"w1", "b@b.c", some "", true, "Verified", 4, 5⟩
      ⟨.page ⟨"", "", [], []⟩, .timeout⟩ none = (none, []) ∧
    validate_single_kiro_submission ⟨1, "a@b.c", none, some "https://github.com/a/b", true, "Verified", 4, 5, false, ""⟩
      ⟨.page ⟨"", "", [], []⟩, .timeout⟩ none = (none, []) ∧
    validate_single_kiro_github ⟨1, "a@b.c", some "https://community.aws/p", none, true, "Verified", 4, 5, false, ""⟩
      (fun _ => .timeout) 0 = (none, []) ∧
    (⟨"w1", "a@b.c", none, true, "Verified", 4, 5⟩ : Submission) ∉
      (blog_submissions_validate_stream
        [⟨"w1", "a@b.c", none, true, "Verified", 4, 5⟩,
         ⟨"w2", "c@d.e", some "https://community.aws/p", false, "", 0, 0⟩]
        (fun _ => ⟨.page ⟨"", "", [], []⟩, .timeout⟩) (fun _ => none)).invoked ∧
    (⟨1, "a@b.c", none, none, true, "Verified", 4, 5, false, ""⟩ : KiroSubmission) ∉
      (kiro_submissions_validate_stream
        [⟨1, "a@b.c", none, none, true, "Verified", 4, 5, false, ""⟩,
         ⟨1, "c@d.e", some "https://community.aws/p", none, false, "", 0, 0, false, ""⟩]
        (fun _ => ⟨.page ⟨"", "", [], []⟩, .timeout⟩) (fun _ => none)).invoked := by
  refine ⟨?_, ?_, ?_, ?_, ?_, ?_⟩
  · exact c8_empty_link_never_validated.1 ⟨"w1", "a@b.c", none, true, "Verified", 4, 5⟩
      ⟨.page ⟨"", "", [], []⟩, .timeout⟩ none (by decide)
  · exact c8_empty_link_never_validated.1 ⟨"w1", "b@b.c", some "", true, "Verified", 4, 5⟩
      ⟨.page ⟨"", "", [], []⟩, .timeout⟩ none (by decide)
  · exact c8_empty_link_never_validated.2.2.2.2.2.1
      ⟨1, "a@b.c", none, some "https://github.com/a/b", true, "Verified", 4, 5, false, ""⟩
      ⟨.page ⟨"", "", [], []⟩, .timeout⟩ none (by decide)
  · exact c8_empty_link_never_validated.2.2.2.2.2.2.2.2.2.2.1
      ⟨1, "a@b.c", some "https://community.aws/p", none, true, "Verified", 4, 5, false, ""⟩
      (fun _ => .timeout) 0 (by decide)
  · exact c8_empty_link_never_validated.2.2.1
      [⟨"w1", "a@b.c", none, true, "Verified", 4, 5⟩,
       ⟨"w2", "c@d.e", some "https://community.aws/p", false, "", 0, 0⟩]
      (fun _ => ⟨.page ⟨"", "", [], []⟩, .timeout⟩) (fun _ => none)
      ⟨"w1", "a@b.c", none, true, "Verified", 4, 5⟩
      (List.mem_cons_self _ _) (by decide)
  · exact c8_empty_link_never_validated.2.2.2.2.2.2.2.1
      [⟨1, "a@b.c", none, none, true, "Verified", 4, 5, false, ""⟩,
       ⟨1, "c@d.e", some "https://community.aws/p", none, false, "", 0, 0, false, ""⟩]
      (fun _ => ⟨.page ⟨"", "", [], []⟩, .timeout⟩) (fun _ => none)
      ⟨1, "a@b.c", none, none, true, "Verified", 4, 5, false, ""⟩
      (List.mem_cons_self _ _) (by decide)

/-! ### C9: token-dependent worker pool and pacing -/

theorem kiroGithubStreamLoop_no_sleep (token : Option String)
    (outs : KiroSubmission → Nat → ApiOutcome) (total : Nat)
    (htok : pyTruthy token = true) :
    ∀ (l : List KiroSubmission) (p v f : Nat),
      ∀ a ∈ (kiroGithubStreamLoop token outs total l p v f).1, ∀ n, a ≠ .sleep n := by
  intro l
  induction l with
  | nil =>
      intro p v f a ha n
      simp [kiroGithubStreamLoop] at ha
      rw [ha]
      intro h
      cases h
  | cons s rest ih =>
      intro p v f a ha n
      simp only [kiroGithubStreamLoop, htok, Bool.not_true] at ha
      rcases hres : (validate_single_kiro_github s (outs s) 0).1 with _ | r
      · rw [hres] at ha
        exact ih _ _ _ a ha n
      · rw [hres] at ha
        simp only [Bool.false_and, if_false, List.nil_append, List.mem_cons] at ha
        rcases ha with ha | ha
        · rw [ha]
          intro h
          cases h
        · exact ih _ _ _ a ha n

theorem kiroGithubStreamLoop_sleep_count (outs : KiroSubmission → Nat → ApiOutcome)
    (total : Nat) :
    ∀ (l : List KiroSubmission) (p v f : Nat),
      (∀ s ∈ l, pyTruthy s.github_link = true) → p + l.length = total →
      sleepCount (kiroGithubStreamLoop none outs total l p v f).1 = l.length - 1 := by
  intro l
  induction l with
  | nil => intro p v f _ _; simp [kiroGithubStreamLoop, sleepCount]
  | cons s rest ih =>
      intro p v f hall hsum
      obtain ⟨r, hres⟩ := kiro_github_isSome s (outs s) 0 (hall s (List.mem_cons_self s rest))
      simp only [List.length_cons] at hsum
      have ihr := fun v2 f2 => ih (p + 1) v2 f2
        (fun x hx => hall x (List.mem_cons_of_mem s hx)) (by omega)
      simp only [kiroGithubStreamLoop, hres]
      cases rest with
      | nil =>
          simp only [List.length_nil] at hsum
          have hcond : (decide (p + 1 < total)) = false := by
            simp only [decide_eq_false_iff_not]
            omega
          simp [hcond, sleepCount, kiroGithubStreamLoop, pyTruthy, List.countP_cons]
      | cons s2 rest2 =>
          have hcond : (decide (p + 1 < total)) = true := by
            simp only [decide_eq_true_eq]
            simp only [List.length_cons] at hsum
            omega
          have hc := ihr (if r.valid then v + 1 else v) (if r.valid then f else f + 1)
          simp [sleepCount, List.countP_cons, List.countP_append, pyTruthy, hcond] at hc ⊢
          omega

/-- C9: the repository-validation stream sizes its pool by token
presence — 1 worker with no (or an empty) token, 10 workers with a token,
matching the article stream's 10 — and, without a token, sleeps exactly
one second after each completed request except the last, while with a
token it never sleeps. -/
theorem c9_worker_pool_and_pacing :
    githubStreamMaxWorkers none = 1 ∧
    githubStreamMaxWorkers (some "") = 1 ∧
    (∀ tok : String, ¬(tok = "") → githubStreamMaxWorkers (some tok) = 10) ∧
    blogStreamMaxWorkers = 10 ∧
    (∀ (token : Option String) (subs : List KiroSubmission)
        (outs : KiroSubmission → Nat → ApiOutcome),
      (kiro_submissions_validate_github_stream token subs outs).maxWorkers =
        githubStreamMaxWorkers token) ∧
    (∀ (subs : List KiroSubmission) (outs : KiroSubmission → Nat → ApiOutcome),
      sleepCount (kiro_submissions_validate_github_stream none subs outs).actions =
        (subs.filter (fun s => pyTruthy s.github_link)).length - 1) ∧
    (∀ (token : Option String) (subs : List KiroSubmission)
        (outs : KiroSubmission → Nat → ApiOutcome), pyTruthy token = true →
      ∀ a ∈ (kiro_submissions_validate_github_stream token subs outs).actions,
        ∀ n, a ≠ .sleep n) := by
  refine ⟨rfl, rfl, ?_, rfl, ?_, ?_, ?_⟩
  · intro tok hne
    simp [githubStreamMaxWorkers, pyTruthy, hne]
  · intro token subs outs
    unfold kiro_submissions_validate_github_stream
    by_cases hz : ((subs.filter (fun s => pyTruthy s.github_link)).length == 0) = true
    · rw [if_pos hz]
    · rw [if_neg hz]
  · intro subs outs
    unfold kiro_submissions_validate_github_stream
    by_cases hz : ((subs.filter (fun s => pyTruthy s.github_link)).length == 0) = true
    · rw [if_pos hz]
      have : (subs.filter (fun s => pyTruthy s.github_link)).length = 0 := by simpa using hz
      simp [sleepCount, this]
    · rw [if_neg hz]
      simp only [sleepCount, List.countP_cons]
      have hc := kiroGithubStreamLoop_sleep_count outs
        (subs.filter (fun s => pyTruthy s.github_link)).length
        (subs.filter (fun s => pyTruthy s.github_link)) 0 0 0
        (fun x hx => (List.mem_filter.mp hx).2) (by omega)
      simp only [sleepCount] at hc
      simp [hc]
  · intro token subs outs htok a ha n
    unfold kiro_submissions_validate_github_stream at ha
    by_cases hz : ((subs.filter (fun s => pyTruthy s.github_link)).length == 0) = true
    · rw [if_pos hz] at ha
      simp at ha
      rw [ha]
      intro h
      cases h
    · rw [if_neg hz] at ha
      simp only [List.mem_cons] at ha
      rcases ha with ha | ha
      · rw [ha]
        intro h
        cases h
      · exact kiroGithubStreamLoop_no_sleep token outs _ htok _ _ _ _ a ha n

/-- C9 witness: the pool-sizing and pacing theorem applied to a concrete
two-submission week, with and without a token. -/
theorem c9_witness :
    githubStreamMaxWorkers (some "tok123") = 10 ∧
    sleepCount (kiro_submissions_validate_github_stream none
      [⟨1, "a@b.c", none, some "https://github.com/acme/demo", false, "", 0, 0, false, ""⟩,
       ⟨1, "c@d.e", none, some "https://github.com/acme/demo2", false, "", 0, 0, false, ""⟩]
      (fun _ _ => .timeout)).actions =
      (([⟨1, "a@b.c", none, some "https://github.com/acme/demo", false, "", 0, 0, false, ""⟩,
         ⟨1, "c@d.e", none, some "https://github.com/acme/demo2", false, "", 0, 0, false, ""⟩] :
        List KiroSubmission).filter (fun s => pyTruthy s.github_link)).length - 1 := by
  constructor
  · exact c9_worker_pool_and_pacing.2.2.1 "tok123" (by decide)
  · exact c9_worker_pool_and_pacing.2.2.2.2.2.1
      [⟨1, "a@b.c", none, some "https://github.com/acme/demo", false, "", 0, 0, false, ""⟩,
       ⟨1, "c@d.e", none, some "https://github.com/acme/demo2", false, "", 0, 0, false, ""⟩]
      (fun _ _ => .timeout)

end AppWeb
